import Mathlib

/-!
Verification of the chat-completion gateway backend (`backend/app`).

The development shallowly embeds the parts of the source that the claims
touch:

* the persisted data model (`ExternalAPI`, `ModelRoute`, `RouteNode` from
  `app/db/models.py`), with SQLAlchemy synthetic node ids and node
  timestamps omitted (the backup serialisation in `app/services/backup.py`
  never reads them, and no claim mentions them);
* the routing engine (`app/services/routing.py`): mode dispatch, the
  per-route cursor map, and the round-robin helpers.  The process-local
  cursor dictionary `_round_robin_indices` (which mixes `int` keys with
  `"provider_<id>"` string keys) is embedded as a function from a two-
  constructor key type.  Because the Python dictionary is mutated in place,
  every selection function returns the new cursor map alongside its
  `Except` result, also on the error path;
* the non-streaming chat pipeline (`app/services/chat_completions.py`),
  with the network modelled as an oracle: the outcome of each adapter call
  and of each selection is a function of the call index, so a theorem
  quantified over the oracle covers every behaviour of the real network;
* the health checker transition (`app/services/health_checker.py`);
* the Anthropic and Gemini adapters' pure translation functions
  (`app/services/adapters/anthropic.py`, `gemini.py`);
* backup and restore (`app/services/backup.py`), with the file system
  modelled as the list of file operations the function performs and JSON
  text abstracted to the structured payload it encodes.

Wall-clock values (`time.time()`, `datetime.now()`) are threaded as
explicit parameters; float latencies are carried as opaque integer values
(no claim computes with them).
-/

namespace Gateway

/-- Row of `external_apis` (`ExternalAPI` in `app/db/models.py`).
Timestamps are carried as opaque ISO strings; `none` in `created_at` /
`updated_at` stands for a server-assigned default that the snapshot did
not fix. -/
structure ExternalAPI where
  id : Nat
  name : String
  base_url : String
  api_key_encrypted : String
  models : List String
  is_active : Bool
  status : String
  latency_ms : Option Int
  last_tested_at : Option String
  consecutive_failures : Int
  is_healthy : Bool
  created_at : Option String
  updated_at : Option String
  deriving Repr, DecidableEq

/-- Row of `route_nodes` (`RouteNode` in `app/db/models.py`).  The
synthetic primary key, `route_id` back-reference and timestamps are
omitted: nodes live inside their route here, and the backup serialiser
(`_serialize_route_node`) reads exactly these five fields. -/
structure RouteNode where
  api_id : Nat
  models : List String
  strategy : String
  priority : Int
  node_metadata : List (String × String)
  deriving Repr, DecidableEq

/-- The recognised keys of a route's JSON `config`
(`config.get("selectedModels", [])`, `config.get("providerMode", "all")`).
`providerMode = none` stands for an absent key. -/
structure RouteConfig where
  selectedModels : List String
  providerMode : Option String
  deriving Repr, DecidableEq

/-- Row of `model_routes` (`ModelRoute` in `app/db/models.py`) with its
eagerly loaded `route_nodes`. -/
structure ModelRoute where
  id : Nat
  name : String
  mode : String
  config : RouteConfig
  is_active : Bool
  route_nodes : List RouteNode
  created_at : Option String
  updated_at : Option String
  deriving Repr, DecidableEq

/-- The durable store: the two tables plus the autoincrement counters
that assign fresh primary keys. -/
structure Store where
  providers : List ExternalAPI
  routes : List ModelRoute
  nextProviderId : Nat
  nextRouteId : Nat
  deriving Repr, DecidableEq

/-- `session.get(ExternalAPI, api_id)`: primary-key lookup. -/
def getProvider (st : Store) (api_id : Nat) : Option ExternalAPI :=
  st.providers.find? (fun p => p.id == api_id)

/-- `session.query(ModelRoute) ... .get(route_id)`. -/
def getRouteById (st : Store) (route_id : Nat) : Option ModelRoute :=
  st.routes.find? (fun r => r.id == route_id)

/-- A key of `RoutingService._round_robin_indices`.  The Python dictionary
mixes plain `int` route ids (node-level cursor) with the strings
`"provider_<route_id>"` (provider-level cursor); an `int` never equals a
`str`, so the two key families are disjoint, which the two constructors
reflect. -/
inductive RRKey where
  | routeId (rid : Nat)
  | providerStr (rid : Nat)
  deriving Repr, DecidableEq

/-- The cursor dictionary `_round_robin_indices`. -/
def RRMap : Type := RRKey → Option Nat

/-- Dictionary write `d[k] = v`. -/
def rrSet (m : RRMap) (k : RRKey) (v : Nat) : RRMap :=
  fun k2 => if k2 = k then some v else m k2

/-- Dictionary delete `del d[k]` (no-op when absent, as guarded in
`reset_state`). -/
def rrDel (m : RRMap) (k : RRKey) : RRMap :=
  fun k2 => if k2 = k then none else m k2

/-- `RoutingService.reset_state`: removes only the `int`-keyed node-level
cursor of the route; the string key `"provider_<route_id>"` is a
different dictionary key and is not touched. -/
def reset_state (rr : RRMap) (route_id : Nat) : RRMap :=
  rrDel rr (.routeId route_id)

/-- `RoutingService._apply_round_robin_to_providers`: cursor under the
string key `"provider_<route_id>"`, chosen index `cursor % len`, cursor
update `(cursor + 1) % len`.  Returns the mutated map also on the error
path (the Python dictionary persists across the raised exception). -/
def _apply_round_robin_to_providers (route_id : Nat)
    (providers : List ExternalAPI) (rr : RRMap) :
    Except String ExternalAPI × RRMap :=
  match providers with
  | [] => (.error "No providers available for round-robin selection", rr)
  | p :: ps =>
    let l := p :: ps
    let current := (rr (.providerStr route_id)).getD 0
    let selected := l.get ⟨current % l.length, Nat.mod_lt _ (by simp [l])⟩
    (.ok selected, rrSet rr (.providerStr route_id) ((current + 1) % l.length))

/-- `RoutingService._apply_round_robin_strategy`: same cursor discipline
under the plain route-id key. -/
def _apply_round_robin_strategy (route_id : Nat)
    (nodes : List RouteNode) (rr : RRMap) :
    Except String RouteNode × RRMap :=
  match nodes with
  | [] => (.error "No nodes available for round-robin selection", rr)
  | n :: ns =>
    let l := n :: ns
    let current := (rr (.routeId route_id)).getD 0
    let selected := l.get ⟨current % l.length, Nat.mod_lt _ (by simp [l])⟩
    (.ok selected, rrSet rr (.routeId route_id) ((current + 1) % l.length))

/-- `RoutingService._pick_model_from_node`. -/
def _pick_model_from_node (st : Store) (node : RouteNode)
    (model_hint : Option String) : Except String (Nat × String) :=
  match getProvider st node.api_id with
  | none => .error "Provider not found"
  | some provider =>
    let node_models := if node.models ≠ [] then node.models else provider.models
    match node_models with
    | [] => .error "No models available for provider"
    | m :: ms =>
      match model_hint with
      | some hint =>
        if hint ∈ m :: ms then .ok (provider.id, hint)
        else .error "Model not available in provider"
      | none => .ok (provider.id, m)

/-- `RoutingService._pick_model_from_config`. -/
def _pick_model_from_config (selected_models : List String) :
    Except String String :=
  match selected_models with
  | [] => .error "No models configured for selection"
  | m :: _ => .ok m

/-- Python `int(provider_mode.replace("provider_", ""))`; a non-numeric
remainder raises `ValueError`, surfaced here as an error. -/
def parseProviderModeId (provider_mode : String) : Except String Nat :=
  match (provider_mode.replace "provider_" "").toNat? with
  | some n => .ok n
  | none => .error "invalid provider mode"

/-- `RoutingService._select_auto_with_config`. -/
def _select_auto_with_config (st : Store) (route : ModelRoute)
    (selected_models : List String) (provider_mode : String)
    (model_hint : Option String) (rr : RRMap) :
    Except String (Nat × String) × RRMap :=
  let pick : ExternalAPI → RRMap → Except String (Nat × String) × RRMap :=
    fun selected_provider rr2 =>
      match model_hint with
      | some hint =>
        if hint ∈ selected_models then (.ok (selected_provider.id, hint), rr2)
        else (.error "Model not in configured models for route", rr2)
      | none =>
        match _pick_model_from_config selected_models with
        | .ok m => (.ok (selected_provider.id, m), rr2)
        | .error e => (.error e, rr2)
  if provider_mode = "all" then
    let active_providers :=
      st.providers.filter (fun p => p.is_active && p.is_healthy)
    if active_providers = [] then (.error "No active providers in route", rr)
    else
      match _apply_round_robin_to_providers route.id active_providers rr with
      | (.ok selected_provider, rr2) => pick selected_provider rr2
      | (.error e, rr2) => (.error e, rr2)
  else
    match parseProviderModeId provider_mode with
    | .error e => (.error e, rr)
    | .ok provider_id =>
      match getProvider st provider_id with
      | none => (.error "Provider is not active or healthy in route", rr)
      | some provider =>
        if !(provider.is_active && provider.is_healthy) then
          (.error "Provider is not active or healthy in route", rr)
        else pick provider rr

/-- `RoutingService._select_auto`. -/
def _select_auto (st : Store) (route : ModelRoute)
    (model_hint : Option String) (rr : RRMap) :
    Except String (Nat × String) × RRMap :=
  let selected_models := route.config.selectedModels
  let provider_mode := route.config.providerMode.getD "all"
  if selected_models ≠ [] then
    _select_auto_with_config st route selected_models provider_mode model_hint rr
  else if provider_mode = "all" then
    let active_providers :=
      st.providers.filter (fun p => p.is_active && p.is_healthy)
    if active_providers = [] then (.error "No active providers in route", rr)
    else
      match model_hint with
      | some hint =>
        match active_providers.find? (fun p => hint ∈ p.models) with
        | some provider => (.ok (provider.id, hint), rr)
        | none =>
          let available_models := (active_providers.map (fun p => p.models)).flatten
          if available_models ≠ [] then
            match _apply_round_robin_to_providers route.id active_providers rr with
            | (.ok sp, rr2) =>
              -- `sp.models[0] if sp.models else available_models[0]`; the
              -- `headD` defaults are unreachable under the guards above.
              (.ok (sp.id, if sp.models ≠ [] then sp.models.headD ""
                           else available_models.headD ""), rr2)
            | (.error e, rr2) => (.error e, rr2)
          else (.error "No models available in any provider", rr)
      | none =>
        match _apply_round_robin_to_providers route.id active_providers rr with
        | (.ok sp, rr2) =>
          match sp.models with
          | [] => (.error "No models available for provider", rr2)
          | m :: _ => (.ok (sp.id, m), rr2)
        | (.error e, rr2) => (.error e, rr2)
  else
    match parseProviderModeId provider_mode with
    | .error e => (.error e, rr)
    | .ok provider_id =>
      match getProvider st provider_id with
      | none => (.error "Provider is not active or healthy in route", rr)
      | some provider =>
        if !(provider.is_active && provider.is_healthy) then
          (.error "Provider is not active or healthy in route", rr)
        else
          match model_hint with
          | some hint =>
            if hint ∈ provider.models then (.ok (provider.id, hint), rr)
            else (.error "Model not found in provider", rr)
          | none =>
            match provider.models with
            | [] => (.error "No models available for provider", rr)
            | m :: _ => (.ok (provider.id, m), rr)

/-- `RoutingService._select_specific_with_config`. -/
def _select_specific_with_config (st : Store) (route : ModelRoute)
    (selected_models : List String) (model_hint : Option String) :
    Except String (Nat × String) :=
  match route.route_nodes with
  | [] => .error "Route has no configured nodes"
  | node :: _ =>
    match getProvider st node.api_id with
    | none => .error "Provider for route is not active or healthy"
    | some provider =>
      if !(provider.is_active && provider.is_healthy) then
        .error "Provider for route is not active or healthy"
      else
        match model_hint with
        | some hint =>
          if hint ∈ selected_models then .ok (provider.id, hint)
          else .error "Model not in configured models for route"
        | none =>
          match _pick_model_from_config selected_models with
          | .ok m => .ok (provider.id, m)
          | .error e => .error e

/-- `RoutingService._select_specific`. -/
def _select_specific (st : Store) (route : ModelRoute)
    (model_hint : Option String) : Except String (Nat × String) :=
  let selected_models := route.config.selectedModels
  if selected_models ≠ [] then
    _select_specific_with_config st route selected_models model_hint
  else
    match route.route_nodes with
    | [] => .error "Route has no configured nodes"
    | node :: _ =>
      match getProvider st node.api_id with
      | none => .error "Provider for route is not active or healthy"
      | some provider =>
        if !(provider.is_active && provider.is_healthy) then
          .error "Provider for route is not active or healthy"
        else
          let available_models :=
            if node.models ≠ [] then node.models else provider.models
          match model_hint with
          | some hint =>
            if hint ∈ available_models then .ok (node.api_id, hint)
            else
              -- model hint absent: silently fall back to the first model
              match available_models with
              | [] => .error "No models available for provider"
              | m :: _ => .ok (node.api_id, m)
          | none =>
            match available_models with
            | [] => .error "No models available for provider"
            | m :: _ => .ok (node.api_id, m)

/-- The filtering list comprehension opening `_select_multi`: an
`api_id` that resolves to no provider raises `AttributeError`
(`session.get(...).is_active` on `None`), surfaced as an error. -/
def activeHealthyNodes (st : Store) : List RouteNode →
    Except String (List RouteNode)
  | [] => .ok []
  | n :: ns =>
    match getProvider st n.api_id with
    | none => .error "AttributeError: provider is None"
    | some p =>
      match activeHealthyNodes st ns with
      | .error e => .error e
      | .ok rest =>
        .ok (if p.is_active && p.is_healthy then n :: rest else rest)

/-- Stable insertion of a node in front of the first element that is not
strictly smaller.  `sortByPriority` inserts each head into its already
sorted tail, so the inserted node precedes every element of that tail in
the original order; placing it before all equal priorities (`≤`) keeps
equal-priority nodes in their original relative order — the stable-sort
contract of Python's `sorted(..., key=lambda n: n.priority)`. -/
def insertByPriority (n : RouteNode) : List RouteNode → List RouteNode
  | [] => [n]
  | m :: ms =>
    if n.priority ≤ m.priority then n :: m :: ms else m :: insertByPriority n ms

/-- `sorted(active_nodes, key=lambda n: n.priority)` as a stable
insertion sort. -/
def sortByPriority : List RouteNode → List RouteNode
  | [] => []
  | n :: ns => insertByPriority n (sortByPriority ns)

/-- `node.models if node.models else session.get(ExternalAPI, node.api_id).models`. -/
def nodeModels (st : Store) (node : RouteNode) : Except String (List String) :=
  if node.models ≠ [] then .ok node.models
  else
    match getProvider st node.api_id with
    | none => .error "AttributeError: provider is None"
    | some p => .ok p.models

/-- `available_models` accumulation of the fall-through block of
`_select_multi`. -/
def collectNodeModels (st : Store) : List RouteNode →
    Except String (List String)
  | [] => .ok []
  | n :: ns =>
    match nodeModels st n with
    | .error e => .error e
    | .ok ms =>
      match collectNodeModels st ns with
      | .error e => .error e
      | .ok rest => .ok (ms ++ rest)

/-- The code that runs when the `for node in active_nodes` loop of
`_select_multi` exhausts without returning. -/
def selectMultiFallthrough (st : Store) (active_nodes : List RouteNode)
    (model_hint : Option String) (rr : RRMap) :
    Except String (Nat × String) × RRMap :=
  match model_hint with
  | some _ =>
    match collectNodeModels st active_nodes with
    | .error e => (.error e, rr)
    | .ok available_models =>
      if available_models ≠ [] then
        match active_nodes with
        | [] => (.error "No models available in any active provider", rr)
        | selected :: _ =>
          match nodeModels st selected with
          | .error e => (.error e, rr)
          | .ok node_models =>
            match node_models with
            | m :: _ => (.ok (selected.api_id, m), rr)
            | [] => (.ok (selected.api_id, available_models.headD ""), rr)
      else (.error "No models available in any active provider", rr)
  | none =>
    match active_nodes with
    | [] => (.error "No models available in any active provider", rr)
    | selected :: _ => (_pick_model_from_node st selected none, rr)

/-- `strategy = node.strategy or "round-robin"` (the empty string is the
only falsy value the non-null column can hold). -/
def effStrategy (node : RouteNode) : String :=
  if node.strategy = "" then "round-robin" else node.strategy

/-- The strategy dispatch of one `_select_multi` loop iteration:
round-robin over the single-element `[node]` list, plain failover, or —
for any other strategy string — fall through to the rest of the loop
(`cont`). -/
def selectMultiBranch (st : Store) (route_id : Nat) (model_hint : Option String)
    (node : RouteNode) (cont : RRMap → Except String (Nat × String) × RRMap)
    (rr : RRMap) : Except String (Nat × String) × RRMap :=
  if effStrategy node = "round-robin" then
    match _apply_round_robin_strategy route_id [node] rr with
    | (.ok selected_node, rr3) =>
      (_pick_model_from_node st selected_node model_hint, rr3)
    | (.error e, rr3) => (.error e, rr3)
  else if effStrategy node = "failover" then
    (_pick_model_from_node st node model_hint, rr)
  else cont rr

/-- The `for node in active_nodes` loop of `_select_multi`: skip a node
whose models miss the hint, otherwise take the strategy branch. -/
def selectMultiLoop (st : Store) (route_id : Nat) (model_hint : Option String)
    (active_nodes : List RouteNode) : List RouteNode → RRMap →
    Except String (Nat × String) × RRMap
  | [], rr => selectMultiFallthrough st active_nodes model_hint rr
  | node :: rest, rr =>
    match model_hint with
    | some hint =>
      match nodeModels st node with
      | .error e => (.error e, rr)
      | .ok nms =>
        if hint ∉ nms then selectMultiLoop st route_id model_hint active_nodes rest rr
        else selectMultiBranch st route_id model_hint node
          (selectMultiLoop st route_id model_hint active_nodes rest) rr
    | none =>
      selectMultiBranch st route_id model_hint node
        (selectMultiLoop st route_id model_hint active_nodes rest) rr

/-- `RoutingService._select_multi`. -/
def _select_multi (st : Store) (route : ModelRoute)
    (model_hint : Option String) (rr : RRMap) :
    Except String (Nat × String) × RRMap :=
  match activeHealthyNodes st route.route_nodes with
  | .error e => (.error e, rr)
  | .ok filtered =>
    let active_nodes := sortByPriority filtered
    if active_nodes = [] then (.error "No active providers in route", rr)
    else selectMultiLoop st route.id model_hint active_nodes active_nodes rr

/-- `RoutingService.select_provider_and_model`. -/
def select_provider_and_model (st : Store) (route_id : Nat)
    (model_hint : Option String) (rr : RRMap) :
    Except String (Nat × String) × RRMap :=
  match getRouteById st route_id with
  | none => (.error "Route not found", rr)
  | some route =>
    if !route.is_active then (.error "Route is not active", rr)
    else if route.mode = "auto" then _select_auto st route model_hint rr
    else if route.mode = "specific" then (_select_specific st route model_hint, rr)
    else if route.mode = "multi" then
      if route.route_nodes = [] then (.error "Route has no configured nodes", rr)
      else _select_multi st route model_hint rr
    else (.error "Unknown route mode", rr)

/-- `RoutingService.delete_route`: `get_route` (raises when absent), then
`reset_state(route_id)`, then the cascade delete of the route row. -/
def delete_route (st : Store) (route_id : Nat) (rr : RRMap) :
    Except String (Store × RRMap) :=
  match getRouteById st route_id with
  | none => .error "Route not found"
  | some _ =>
    .ok ({ st with routes := st.routes.filter (fun r => !(r.id == route_id)) },
         reset_state rr route_id)

/-- Cursor map after `n` consecutive `select_provider_and_model` calls on
one route with no model hint (the store does not change between calls:
the claim's "no concurrent mutation, no health change" hypothesis). -/
def rrIter (st : Store) (route_id : Nat) (rr : RRMap) : Nat → RRMap
  | 0 => rr
  | n + 1 => (select_provider_and_model st route_id none (rrIter st route_id rr n)).2

/-- Result of the `n`-th (0-based) selection in such a run. -/
def nthSelect (st : Store) (route_id : Nat) (rr : RRMap) (n : Nat) :
    Except String (Nat × String) :=
  (select_provider_and_model st route_id none (rrIter st route_id rr n)).1

theorem apply_rr_providers_cons (route_id : Nat) (p : ExternalAPI)
    (ps : List ExternalAPI) (rr : RRMap) :
    _apply_round_robin_to_providers route_id (p :: ps) rr =
      (.ok ((p :: ps).get ⟨((rr (.providerStr route_id)).getD 0) % (p :: ps).length,
          Nat.mod_lt _ (by simp)⟩),
       rrSet rr (.providerStr route_id)
         ((((rr (.providerStr route_id)).getD 0) + 1) % (p :: ps).length)) := rfl

/-- One `auto`/`providerMode="all"`/no-hint/no-`selectedModels` selection:
round-robin pick at `cursor % k`, cursor update to `(cursor + 1) % k`. -/
theorem select_auto_all_step (st : Store) (route : ModelRoute) (rr : RRMap)
    (p : ExternalAPI) (ps : List ExternalAPI)
    (hfind : getRouteById st route.id = some route)
    (hactive : route.is_active = true)
    (hmode : route.mode = "auto")
    (hsel : route.config.selectedModels = [])
    (hpm : route.config.providerMode.getD "all" = "all")
    (hcands : st.providers.filter (fun q => q.is_active && q.is_healthy) = p :: ps) :
    select_provider_and_model st route.id none rr =
      ((match ((p :: ps).getD (((rr (.providerStr route.id)).getD 0) % (p :: ps).length) p).models with
        | [] => .error "No models available for provider"
        | m :: _ =>
          .ok (((p :: ps).getD (((rr (.providerStr route.id)).getD 0) % (p :: ps).length) p).id, m)),
       rrSet rr (.providerStr route.id)
         ((((rr (.providerStr route.id)).getD 0) + 1) % (p :: ps).length)) := by
  have hlt : ((rr (.providerStr route.id)).getD 0) % (p :: ps).length < (p :: ps).length :=
    Nat.mod_lt _ (by simp)
  simp only [select_provider_and_model, hfind, hactive, hmode, Bool.not_true,
    Bool.false_eq_true, if_false, if_true, _select_auto, hsel, hpm,
    hcands, apply_rr_providers_cons, ne_eq, not_true_eq_false, ite_false,
    List.get_eq_getElem, List.getD_eq_getElem _ _ hlt]
  split <;> rename_i h
  · exact absurd h (by simp)
  · split <;> (rename_i h2; simp only [List.length_cons] at h2; simp [h2])

/-- After `n` selections the provider-level cursor is congruent to
`initial + n` modulo the candidate count. -/
theorem rrIter_cursor_mod (st : Store) (route : ModelRoute) (rr : RRMap)
    (p : ExternalAPI) (ps : List ExternalAPI)
    (hfind : getRouteById st route.id = some route)
    (hactive : route.is_active = true)
    (hmode : route.mode = "auto")
    (hsel : route.config.selectedModels = [])
    (hpm : route.config.providerMode.getD "all" = "all")
    (hcands : st.providers.filter (fun q => q.is_active && q.is_healthy) = p :: ps)
    (n : Nat) :
    ((rrIter st route.id rr n) (.providerStr route.id)).getD 0 % (p :: ps).length
      = (((rr (.providerStr route.id)).getD 0) + n) % (p :: ps).length := by
  induction n with
  | zero => simp [rrIter]
  | succ n ih =>
    have hstep := select_auto_all_step st route (rrIter st route.id rr n) p ps
      hfind hactive hmode hsel hpm hcands
    show ((select_provider_and_model st route.id none (rrIter st route.id rr n)).2
        (.providerStr route.id)).getD 0 % (p :: ps).length = _
    rw [hstep]
    simp only [rrSet, eq_self_iff_true, if_true, Option.getD_some]
    rw [Nat.mod_mod_of_dvd _ dvd_rfl, ← Nat.mod_add_mod, ih, Nat.mod_add_mod,
      ← Nat.add_assoc]

/-- The `n`-th selection returns the candidate at index
`(initial cursor + n) % k` with its first model. -/
theorem nthSelect_eq (st : Store) (route : ModelRoute) (rr : RRMap)
    (p : ExternalAPI) (ps : List ExternalAPI)
    (hfind : getRouteById st route.id = some route)
    (hactive : route.is_active = true)
    (hmode : route.mode = "auto")
    (hsel : route.config.selectedModels = [])
    (hpm : route.config.providerMode.getD "all" = "all")
    (hcands : st.providers.filter (fun q => q.is_active && q.is_healthy) = p :: ps)
    (n : Nat) :
    nthSelect st route.id rr n =
      (match ((p :: ps).getD ((((rr (.providerStr route.id)).getD 0) + n) % (p :: ps).length) p).models with
       | [] => .error "No models available for provider"
       | m :: _ =>
         .ok (((p :: ps).getD ((((rr (.providerStr route.id)).getD 0) + n) % (p :: ps).length) p).id, m)) := by
  have hstep := select_auto_all_step st route (rrIter st route.id rr n) p ps
    hfind hactive hmode hsel hpm hcands
  show (select_provider_and_model st route.id none (rrIter st route.id rr n)).1 = _
  rw [hstep]
  rw [rrIter_cursor_mod st route rr p ps hfind hactive hmode hsel hpm hcands n]

/-- C2: on an `auto` route with `providerMode == "all"`, no
`selectedModels` and no model hint, over a stable fleet whose
active-and-healthy candidates are `p :: ps` (`k` of them, each with at
least one model), every selection succeeds, any `k` consecutive
selections return pairwise distinct provider ids, and selections `k`
apart return the same result (the per-key cursor advances by one modulo
`k`). -/
theorem C2_auto_round_robin_fairness (st : Store) (route : ModelRoute) (rr : RRMap)
    (p : ExternalAPI) (ps : List ExternalAPI)
    (hnodup : (st.providers.map (fun q => q.id)).Nodup)
    (hfind : getRouteById st route.id = some route)
    (hactive : route.is_active = true)
    (hmode : route.mode = "auto")
    (hsel : route.config.selectedModels = [])
    (hpm : route.config.providerMode.getD "all" = "all")
    (hcands : st.providers.filter (fun q => q.is_active && q.is_healthy) = p :: ps)
    (hmods : ∀ q ∈ st.providers.filter (fun q => q.is_active && q.is_healthy),
      q.models ≠ []) :
    (∀ n, ∃ pid m, nthSelect st route.id rr n = .ok (pid, m)) ∧
    (∀ i j pid1 m1 pid2 m2, i < (p :: ps).length → j < (p :: ps).length → i ≠ j →
      nthSelect st route.id rr i = .ok (pid1, m1) →
      nthSelect st route.id rr j = .ok (pid2, m2) → pid1 ≠ pid2) ∧
    (∀ n, nthSelect st route.id rr (n + (p :: ps).length) = nthSelect st route.id rr n) := by
  have hkpos : 0 < (p :: ps).length := by simp
  have hin : ∀ n : Nat,
      (p :: ps).getD ((((rr (.providerStr route.id)).getD 0) + n) % (p :: ps).length) p
        ∈ (p :: ps) := by
    intro n
    rw [List.getD_eq_getElem _ _ (Nat.mod_lt _ hkpos)]
    exact List.getElem_mem _
  have hmodn : ∀ n : Nat,
      ((p :: ps).getD ((((rr (.providerStr route.id)).getD 0) + n) % (p :: ps).length) p).models
        ≠ [] := by
    intro n
    exact hmods _ (hcands ▸ hin n)
  have hval : ∀ n, nthSelect st route.id rr n =
      .ok (((p :: ps).getD ((((rr (.providerStr route.id)).getD 0) + n) % (p :: ps).length) p).id,
           ((p :: ps).getD ((((rr (.providerStr route.id)).getD 0) + n) % (p :: ps).length) p).models.headD "") := by
    intro n
    rw [nthSelect_eq st route rr p ps hfind hactive hmode hsel hpm hcands n]
    rcases hm : ((p :: ps).getD ((((rr (.providerStr route.id)).getD 0) + n) % (p :: ps).length) p).models
      with _ | ⟨m, ms⟩
    · exact absurd hm (hmodn n)
    · rfl
  have hnd : ((p :: ps).map (fun q => q.id)).Nodup := by
    have hsub : List.Sublist (p :: ps) st.providers := by
      rw [← hcands]; exact List.filter_sublist st.providers
    exact hnodup.sublist (hsub.map _)
  have idInj : ∀ a b : Nat, a < (p :: ps).length → b < (p :: ps).length →
      ((p :: ps).getD a p).id = ((p :: ps).getD b p).id → a = b := by
    intro a b ha hb h
    have h' : ((p :: ps).map (fun q => q.id)).get ⟨a, by simpa using ha⟩ =
        ((p :: ps).map (fun q => q.id)).get ⟨b, by simpa using hb⟩ := by
      simp only [List.get_eq_getElem, List.getElem_map]
      rw [List.getD_eq_getElem _ _ ha, List.getD_eq_getElem _ _ hb] at h
      exact h
    have := (List.Nodup.get_inj_iff hnd).1 h'
    exact congrArg Fin.val this
  refine ⟨fun n => ⟨_, _, hval n⟩, ?_, ?_⟩
  · intro i j pid1 m1 pid2 m2 hi hj hne h1 h2 heq
    rw [hval i] at h1
    rw [hval j] at h2
    have e1 : ((p :: ps).getD ((((rr (.providerStr route.id)).getD 0) + i) % (p :: ps).length) p).id = pid1 := by
      injection h1 with h1'; exact (congrArg Prod.fst h1')
    have e2 : ((p :: ps).getD ((((rr (.providerStr route.id)).getD 0) + j) % (p :: ps).length) p).id = pid2 := by
      injection h2 with h2'; exact (congrArg Prod.fst h2')
    have hij : (((rr (.providerStr route.id)).getD 0) + i) % (p :: ps).length
        = (((rr (.providerStr route.id)).getD 0) + j) % (p :: ps).length :=
      idInj _ _ (Nat.mod_lt _ hkpos) (Nat.mod_lt _ hkpos)
        (by rw [e1, e2, heq])
    have hmod : i % (p :: ps).length = j % (p :: ps).length :=
      Nat.ModEq.add_left_cancel' ((rr (.providerStr route.id)).getD 0) hij
    rw [Nat.mod_eq_of_lt hi, Nat.mod_eq_of_lt hj] at hmod
    exact hne hmod
  · intro n
    rw [hval n, hval (n + (p :: ps).length)]
    rw [show (((rr (.providerStr route.id)).getD 0) + (n + (p :: ps).length)) % (p :: ps).length
        = (((rr (.providerStr route.id)).getD 0) + n) % (p :: ps).length from by
      rw [← Nat.add_assoc, Nat.add_mod_right]]

/-- Concrete fleet for exercising the routing theorems: two active,
healthy providers with one model each. -/
def c2p1 : ExternalAPI :=
  { id := 1, name := "p1", base_url := "http://a", api_key_encrypted := "e1",
    models := ["m1"], is_active := true, status := "online", latency_ms := none,
    last_tested_at := none, consecutive_failures := 0, is_healthy := true,
    created_at := none, updated_at := none }

def c2p2 : ExternalAPI :=
  { id := 2, name := "p2", base_url := "http://b", api_key_encrypted := "e2",
    models := ["m2"], is_active := true, status := "online", latency_ms := none,
    last_tested_at := none, consecutive_failures := 0, is_healthy := true,
    created_at := none, updated_at := none }

/-- An `auto` route with `providerMode = "all"` and no selected models. -/
def c2route : ModelRoute :=
  { id := 7, name := "r", mode := "auto",
    config := { selectedModels := [], providerMode := some "all" },
    is_active := true, route_nodes := [], created_at := none, updated_at := none }

def c2st : Store :=
  { providers := [c2p1, c2p2], routes := [c2route],
    nextProviderId := 3, nextRouteId := 8 }

/-- Fresh cursor map: no selection has happened yet. -/
def emptyRR : RRMap := fun _ => none

/-- Witness for C2 on the concrete two-provider fleet: selections two
apart coincide, and the first two selections hit the two distinct
providers. -/
theorem C2_auto_round_robin_fairness_witness :
    (0 : Nat) < (List.filter (fun q => q.is_active && q.is_healthy) c2st.providers).length ∧
    nthSelect c2st c2route.id emptyRR (0 + 2) = nthSelect c2st c2route.id emptyRR 0 ∧
    nthSelect c2st c2route.id emptyRR 0 = .ok (1, "m1") ∧
    nthSelect c2st c2route.id emptyRR 1 = .ok (2, "m2") :=
  ⟨by decide,
   (C2_auto_round_robin_fairness c2st c2route emptyRR c2p1 [c2p2]
      (by decide) (by decide) (by decide) (by decide) (by decide) (by decide)
      (by decide) (by decide)).2.2 0,
   rfl, rfl⟩

/-- A cursor map as left by one provider-level and one node-level
selection on route 7: both key families populated. -/
def c7rr : RRMap :=
  fun k =>
    if k = .providerStr 7 then some 1
    else if k = .routeId 7 then some 0
    else none

/-- C7: `delete_route` removes the node-level cursor (`int` key) but
leaves the provider-level cursor: `reset_state` only deletes the plain
route-id key, never the `"provider_<route_id>"` string key written by
`_apply_round_robin_to_providers`.  After deleting route 7 the map still
holds `provider_7 ↦ 1`, contradicting the claim that neither entry
remains. -/
theorem C7_delete_route_leaves_provider_cursor :
    (delete_route c2st c2route.id c7rr).toOption.map
        (fun res => (res.2 (.routeId 7), res.2 (.providerStr 7)))
      = some (none, some 1) := rfl

/-- When every node of the iterated list misses the hint, the
`_select_multi` loop falls through to its post-loop block. -/
theorem selectMultiLoop_all_skipped (st : Store) (rid : Nat) (hint : String)
    (active : List RouteNode) :
    ∀ (l : List RouteNode) (rr : RRMap),
      (∀ n ∈ l, ∃ ms, nodeModels st n = .ok ms ∧ hint ∉ ms) →
      selectMultiLoop st rid (some hint) active l rr =
        selectMultiFallthrough st active (some hint) rr := by
  intro l
  induction l with
  | nil => intro rr _; rfl
  | cons n ns ih =>
    intro rr hall
    obtain ⟨ms, hms, hnot⟩ := hall n (by simp)
    rw [selectMultiLoop, hms]
    simp only [hnot, not_false_eq_true, if_true, ite_true]
    exact ih rr (fun n2 hn2 => hall n2 (by simp [hn2]))

/-- One real provider with one model for the multi-mode scenarios. -/
def c5node : RouteNode :=
  { api_id := 1, models := [], strategy := "failover", priority := 0,
    node_metadata := [] }

def c5route : ModelRoute :=
  { id := 3, name := "mr", mode := "multi", config := ⟨[], none⟩,
    is_active := true, route_nodes := [c5node],
    created_at := none, updated_at := none }

def c5st : Store :=
  { providers := [c2p1], routes := [c5route],
    nextProviderId := 2, nextRouteId := 4 }

/-- C5 counterexample: on a `multi` route whose only active node does not
expose the hinted model `"ghost"`, selection does not fail: it returns
the fallback pair `(1, "m1")`, so the claimed `ModelNotFound` outcome is
false at this input. -/
theorem C5_counterexample :
    (select_provider_and_model c5st c5route.id (some "ghost") emptyRR).1
        = .ok (1, "m1") ∧
    ∀ e, (select_provider_and_model c5st c5route.id (some "ghost") emptyRR).1
        ≠ .error e := by
  refine ⟨rfl, fun e h => ?_⟩
  rw [show (select_provider_and_model c5st c5route.id (some "ghost") emptyRR).1
      = Except.ok (1, "m1") from rfl] at h
  exact Except.noConfusion h

/-- C5 (amended): in `multi` mode with a model hint, when the ordered
iteration over active-and-healthy nodes exhausts without a node whose
models contain the hint, `select_provider_and_model` does not raise
`ModelNotFound`: if any active node has models it silently falls back to
the first active node (its first model, or the first collected model when
that node has none); it raises the error
`"No models available in any active provider"` only when no active node
has any models. -/
theorem C5_multi_hint_exhausted_falls_back (st : Store) (route : ModelRoute)
    (hint : String) (rr : RRMap) (filtered : List RouteNode)
    (avail : List String)
    (hfind : getRouteById st route.id = some route)
    (hactive : route.is_active = true)
    (hmode : route.mode = "multi")
    (hnodes : route.route_nodes ≠ [])
    (hfil : activeHealthyNodes st route.route_nodes = .ok filtered)
    (hne : sortByPriority filtered ≠ [])
    (hskip : ∀ n ∈ sortByPriority filtered,
      ∃ ms, nodeModels st n = .ok ms ∧ hint ∉ ms)
    (hcol : collectNodeModels st (sortByPriority filtered) = .ok avail) :
    (avail ≠ [] → ∀ first rest, sortByPriority filtered = first :: rest →
      ∀ ms, nodeModels st first = .ok ms →
      (select_provider_and_model st route.id (some hint) rr).1 =
        .ok (first.api_id,
          match ms with
          | m :: _ => m
          | [] => avail.headD "")) ∧
    (avail = [] → (select_provider_and_model st route.id (some hint) rr).1 =
      .error "No models available in any active provider") := by
  have hdispatch : select_provider_and_model st route.id (some hint) rr =
      _select_multi st route (some hint) rr := by
    simp only [select_provider_and_model, hfind, hactive, hmode]
    simp [hnodes]
  have hmulti : _select_multi st route (some hint) rr =
      selectMultiFallthrough st (sortByPriority filtered) (some hint) rr := by
    rw [_select_multi, hfil]
    simp only [hne, if_false, ite_false, if_neg hne]
    exact selectMultiLoop_all_skipped st route.id hint (sortByPriority filtered)
      (sortByPriority filtered) rr hskip
  constructor
  · intro hav first rest hsort ms hms
    rw [hdispatch, hmulti, selectMultiFallthrough, hcol]
    simp only [hsort, hms]
    rw [if_pos hav]
    cases ms with
    | nil => rfl
    | cons m ms2 => rfl
  · intro hav
    rw [hdispatch, hmulti, selectMultiFallthrough, hcol]
    simp [hav]

/-- Witness for the amended C5 at the concrete fallback input. -/
theorem C5_multi_hint_exhausted_falls_back_witness :
    (["m1"] : List String) ≠ [] ∧
    (select_provider_and_model c5st c5route.id (some "ghost") emptyRR).1 =
      .ok (c5node.api_id, "m1") := by
  refine ⟨by decide, ?_⟩
  have h := (C5_multi_hint_exhausted_falls_back c5st c5route "ghost" emptyRR
      [c5node] ["m1"] rfl rfl rfl (by decide) rfl (by decide)
      (fun n hn => by
        have : n = c5node := List.mem_singleton.mp hn
        exact ⟨["m1"], by rw [this]; exact ⟨rfl, by decide⟩⟩)
      rfl).1 (by decide) c5node [] rfl ["m1"] rfl
  exact h

/-- Two nodes that agree on every selection-relevant attribute and whose
strategies are either identical or both effectively one of
`"round-robin"` and `"failover"`. -/
def NodeEquiv (n n2 : RouteNode) : Prop :=
  n.api_id = n2.api_id ∧ n.models = n2.models ∧ n.priority = n2.priority ∧
  n.node_metadata = n2.node_metadata ∧
  (n.strategy = n2.strategy ∨
    ((effStrategy n = "round-robin" ∨ effStrategy n = "failover") ∧
     (effStrategy n2 = "round-robin" ∨ effStrategy n2 = "failover")))

/-- Relating two `Except` results: equal errors, or related successes. -/
def ExceptRel (R : α → α → Prop) : Except String α → Except String α → Prop
  | .error e, .error e2 => e = e2
  | .ok a, .ok b => R a b
  | _, _ => False

theorem nodeModels_congr (st : Store) {n n2 : RouteNode} (h : NodeEquiv n n2) :
    nodeModels st n = nodeModels st n2 := by
  obtain ⟨h1, h2, -, -, -⟩ := h
  rw [nodeModels, nodeModels, h1, h2]

theorem pick_model_congr (st : Store) (hint : Option String)
    {n n2 : RouteNode} (h : NodeEquiv n n2) :
    _pick_model_from_node st n hint = _pick_model_from_node st n2 hint := by
  obtain ⟨h1, h2, -, -, -⟩ := h
  rw [_pick_model_from_node, _pick_model_from_node, h1, h2]

theorem activeHealthyNodes_congr (st : Store) :
    ∀ {l l2 : List RouteNode}, List.Forall₂ NodeEquiv l l2 →
    ExceptRel (List.Forall₂ NodeEquiv)
      (activeHealthyNodes st l) (activeHealthyNodes st l2) := by
  intro l l2 h
  induction h with
  | nil => exact List.Forall₂.nil
  | @cons n n2 ns ns2 hn hrest ih =>
    rw [activeHealthyNodes, activeHealthyNodes, hn.1]
    cases hp : getProvider st n2.api_id with
    | none => rfl
    | some p =>
      cases h1 : activeHealthyNodes st ns with
      | error e =>
        cases h2 : activeHealthyNodes st ns2 with
        | error e2 =>
          have : e = e2 := by rw [h1, h2] at ih; exact ih
          simpa [ExceptRel] using this
        | ok r2 => rw [h1, h2] at ih; exact absurd ih (by simp [ExceptRel])
      | ok r =>
        cases h2 : activeHealthyNodes st ns2 with
        | error e2 => rw [h1, h2] at ih; exact absurd ih (by simp [ExceptRel])
        | ok r2 =>
          rw [h1, h2] at ih
          have ihr : List.Forall₂ NodeEquiv r r2 := ih
          by_cases hb : p.is_active && p.is_healthy
          · simpa [ExceptRel, hb] using List.Forall₂.cons hn ihr
          · simpa [ExceptRel, hb] using ihr

theorem insertByPriority_congr :
    ∀ {l l2 : List RouteNode}, List.Forall₂ NodeEquiv l l2 →
    ∀ {n n2 : RouteNode}, NodeEquiv n n2 →
    List.Forall₂ NodeEquiv (insertByPriority n l) (insertByPriority n2 l2) := by
  intro l l2 h
  induction h with
  | nil => intro n n2 hn; exact .cons hn .nil
  | @cons m m2 ms ms2 hm hrest ih =>
    intro n n2 hn
    rw [insertByPriority, insertByPriority]
    rw [← hn.2.2.1, ← hm.2.2.1]
    by_cases hlt : n.priority ≤ m.priority
    · simp only [hlt, if_true, ite_true]
      exact .cons hn (.cons hm hrest)
    · simp only [hlt, if_false, ite_false]
      exact .cons hm (ih hn)

theorem sortByPriority_congr :
    ∀ {l l2 : List RouteNode}, List.Forall₂ NodeEquiv l l2 →
    List.Forall₂ NodeEquiv (sortByPriority l) (sortByPriority l2) := by
  intro l l2 h
  induction h with
  | nil => exact .nil
  | @cons n n2 ns ns2 hn hrest ih =>
    rw [sortByPriority, sortByPriority]
    exact insertByPriority_congr ih hn

theorem collectNodeModels_congr (st : Store) :
    ∀ {l l2 : List RouteNode}, List.Forall₂ NodeEquiv l l2 →
    collectNodeModels st l = collectNodeModels st l2 := by
  intro l l2 h
  induction h with
  | nil => rfl
  | @cons n n2 ns ns2 hn hrest ih =>
    rw [collectNodeModels, collectNodeModels, nodeModels_congr st hn, ih]

theorem selectMultiFallthrough_congr (st : Store) (hint : Option String)
    (rr : RRMap) {a a2 : List RouteNode} (h : List.Forall₂ NodeEquiv a a2) :
    selectMultiFallthrough st a hint rr = selectMultiFallthrough st a2 hint rr := by
  cases hint with
  | none =>
    cases h with
    | nil => rfl
    | cons hn hrest =>
      rw [selectMultiFallthrough, selectMultiFallthrough,
        pick_model_congr st none hn]
  | some hintv =>
    rw [selectMultiFallthrough, selectMultiFallthrough,
      collectNodeModels_congr st h]
    cases hc : collectNodeModels st a2 with
    | error e => rfl
    | ok avail =>
      cases h with
      | nil => rfl
      | @cons n n2 ns ns2 hn hrest =>
        simp only [nodeModels_congr st hn, hn.1]

/-- Round-robin over a single-element node list always selects that node
and resets the route-level cursor to zero. -/
theorem apply_rr_strategy_singleton (route_id : Nat) (n : RouteNode) (rr : RRMap) :
    _apply_round_robin_strategy route_id [n] rr =
      (.ok n, rrSet rr (.routeId route_id) 0) := by
  rw [_apply_round_robin_strategy]
  simp [Nat.mod_one]

/-- When a node's effective strategy is `"round-robin"` or `"failover"`,
the branch returns `_pick_model_from_node` on that node (the round-robin
case selects from the singleton `[node]`). -/
theorem selectMultiBranch_fst_of_eff (st : Store) (route_id : Nat)
    (hint : Option String) (n : RouteNode)
    (cont : RRMap → Except String (Nat × String) × RRMap) (rr : RRMap)
    (h : effStrategy n = "round-robin" ∨ effStrategy n = "failover") :
    (selectMultiBranch st route_id hint n cont rr).1 =
      _pick_model_from_node st n hint := by
  rw [selectMultiBranch]
  rcases h with h | h
  · simp [h, apply_rr_strategy_singleton]
  · simp [h]

theorem selectMultiBranch_congr (st : Store) (route_id : Nat)
    (hint : Option String) {n n2 : RouteNode} (hn : NodeEquiv n n2)
    (cont cont2 : RRMap → Except String (Nat × String) × RRMap)
    (hc : ∀ rr2, (cont rr2).1 = (cont2 rr2).1) (rr : RRMap) :
    (selectMultiBranch st route_id hint n cont rr).1 =
      (selectMultiBranch st route_id hint n2 cont2 rr).1 := by
  rcases hn.2.2.2.2 with hstr | ⟨h1, h2⟩
  · have he : effStrategy n = effStrategy n2 := by
      rw [effStrategy, effStrategy, hstr]
    rw [selectMultiBranch, selectMultiBranch, he]
    by_cases hrr : effStrategy n2 = "round-robin"
    · simp only [hrr, if_true, ite_true, apply_rr_strategy_singleton]
      exact pick_model_congr st hint hn
    · by_cases hfo : effStrategy n2 = "failover"
      · simp only [hrr, hfo, if_false, if_true, ite_false, ite_true]
        exact pick_model_congr st hint hn
      · simp only [hrr, hfo, if_false, ite_false]
        exact hc rr
  · rw [selectMultiBranch_fst_of_eff st route_id hint n cont rr h1,
      selectMultiBranch_fst_of_eff st route_id hint n2 cont2 rr h2]
    exact pick_model_congr st hint hn

theorem selectMultiLoop_congr (st : Store) (route_id : Nat)
    (hint : Option String) :
    ∀ {l l2 : List RouteNode}, List.Forall₂ NodeEquiv l l2 →
    ∀ {a a2 : List RouteNode}, List.Forall₂ NodeEquiv a a2 →
    ∀ rr, (selectMultiLoop st route_id hint a l rr).1 =
      (selectMultiLoop st route_id hint a2 l2 rr).1 := by
  intro l l2 h
  induction h with
  | nil =>
    intro a a2 ha rr
    show (selectMultiFallthrough st a hint rr).1 =
      (selectMultiFallthrough st a2 hint rr).1
    rw [selectMultiFallthrough_congr st hint rr ha]
  | @cons n n2 ns ns2 hn hrest ih =>
    intro a a2 ha rr
    simp only [selectMultiLoop]
    cases hint with
    | none =>
      exact selectMultiBranch_congr st route_id none hn _ _
        (fun rr2 => ih ha rr2) rr
    | some hintv =>
      rw [nodeModels_congr st hn]
      cases hm : nodeModels st n2 with
      | error e => rfl
      | ok nms =>
        by_cases hin : hintv ∉ nms
        · simp only [hin, if_true, ite_true]
          exact ih ha rr
        · simp only [hin, if_false, ite_false]
          exact selectMultiBranch_congr st route_id (some hintv) hn _ _
            (fun rr2 => ih ha rr2) rr

/-- C10: in `multi` mode the strategies `"round-robin"` and `"failover"`
are observationally equivalent: for two routes with the same id and
node lists equal except that node strategies may be swapped between
(effective) `"round-robin"` and `"failover"`, `_select_multi` returns
the same result — round-robin over the single-element `[node]` list
always picks that node, exactly as failover does. -/
theorem C10_round_robin_equiv_failover (st : Store) (r r2 : ModelRoute)
    (hint : Option String) (rr : RRMap)
    (hid : r.id = r2.id)
    (hnodes : List.Forall₂ NodeEquiv r.route_nodes r2.route_nodes) :
    (_select_multi st r hint rr).1 = (_select_multi st r2 hint rr).1 := by
  rw [_select_multi, _select_multi, hid]
  have hact := activeHealthyNodes_congr st hnodes
  cases h1 : activeHealthyNodes st r.route_nodes with
  | error e =>
    cases h2 : activeHealthyNodes st r2.route_nodes with
    | error e2 =>
      have : e = e2 := by rw [h1, h2] at hact; exact hact
      rw [this]
    | ok f2 => rw [h1, h2] at hact; exact absurd hact (by simp [ExceptRel])
  | ok f =>
    cases h2 : activeHealthyNodes st r2.route_nodes with
    | error e2 => rw [h1, h2] at hact; exact absurd hact (by simp [ExceptRel])
    | ok f2 =>
      rw [h1, h2] at hact
      have hsorted : List.Forall₂ NodeEquiv (sortByPriority f) (sortByPriority f2) :=
        sortByPriority_congr hact
      dsimp only
      by_cases hemp : sortByPriority f = []
      · have hemp2 : sortByPriority f2 = [] := by
          have hlen := hsorted.length_eq
          rw [hemp] at hlen
          exact List.eq_nil_of_length_eq_zero hlen.symm
        rw [if_pos hemp, if_pos hemp2]
      · have hemp2 : ¬ sortByPriority f2 = [] := by
          intro h0
          apply hemp
          have hlen := hsorted.length_eq
          rw [h0] at hlen
          exact List.eq_nil_of_length_eq_zero hlen
        rw [if_neg hemp, if_neg hemp2]
        exact selectMultiLoop_congr st r2.id hint hsorted hsorted rr

/-- A `multi` route whose single node uses the round-robin strategy, and
its failover twin. -/
def c10nodeRR : RouteNode :=
  { api_id := 1, models := ["m1"], strategy := "round-robin", priority := 0,
    node_metadata := [] }

def c10nodeFO : RouteNode :=
  { api_id := 1, models := ["m1"], strategy := "failover", priority := 0,
    node_metadata := [] }

def c10routeRR : ModelRoute :=
  { id := 9, name := "mrr", mode := "multi", config := ⟨[], none⟩,
    is_active := true, route_nodes := [c10nodeRR],
    created_at := none, updated_at := none }

def c10routeFO : ModelRoute :=
  { id := 9, name := "mrr", mode := "multi", config := ⟨[], none⟩,
    is_active := true, route_nodes := [c10nodeFO],
    created_at := none, updated_at := none }

def c10st : Store :=
  { providers := [c2p1], routes := [c10routeRR],
    nextProviderId := 2, nextRouteId := 10 }

/-- Witness for C10: the concrete round-robin and failover twins select
the same `(provider, model)` pair. -/
theorem C10_round_robin_equiv_failover_witness :
    c10routeRR.id = c10routeFO.id ∧
    (_select_multi c10st c10routeRR none emptyRR).1 =
      (_select_multi c10st c10routeFO none emptyRR).1 ∧
    (_select_multi c10st c10routeRR none emptyRR).1 = .ok (1, "m1") :=
  ⟨rfl,
   C10_round_robin_equiv_failover c10st c10routeRR c10routeFO none emptyRR rfl
     (List.Forall₂.cons
       ⟨rfl, rfl, rfl, rfl, Or.inr ⟨Or.inl rfl, Or.inr rfl⟩⟩
       List.Forall₂.nil),
   rfl⟩

/-- Outcome of one `adapter.call_provider` invocation
(`ProviderAdapter.call_provider` in `adapters/base.py`): a parsed
response, or `ProviderAdapterError(detail, status_code)` — `status_code`
is the upstream HTTP status for `httpx.HTTPStatusError` and `none` for a
transport-level `httpx.RequestError`. -/
inductive CallResult where
  | success (resp : String)
  | adapterError (detail : String) (status_code : Option Int)
  deriving Repr, DecidableEq

/-- Outcome of one `select_provider_and_model` call as seen by the
pipeline: a `(provider_id, model)` pair or a raised `RouteServiceError`. -/
inductive SelectOutcome where
  | ok (provider_id : Nat) (model : String)
  | routeError (detail : String)
  deriving Repr, DecidableEq

/-- The pipeline's environment: the routing selector (a function of how
many selections have been made so far, which covers every behaviour of
the stateful selector) and the network (outcome per provider id — each
provider is called at most once per request). -/
structure PipelineEnv where
  selectResult : Nat → SelectOutcome
  callResult : Nat → CallResult

/-- The `last_error` variable of `process_chat_completion`: a
`RouteServiceError` carries no `status_code` attribute; a
`ProviderAdapterError` carries an optional one. -/
inductive LastErr where
  | route
  | adapter (status_code : Option Int)
  deriving Repr, DecidableEq

/-- Python `getattr(e, "status_code", None) or dflt`: `None` and `0` are
falsy and fall back to the default. -/
def pyOrStatus (st : Option Int) (dflt : Int) : Int :=
  match st with
  | none => dflt
  | some c => if c = 0 then dflt else c

/-- Status of the terminal `ChatCompletionError` after all retries:
`getattr(last_error, "status_code", None) or 502`. -/
def finalStatus : Option LastErr → Int
  | none => 502
  | some .route => 502
  | some (.adapter st) => pyOrStatus st 502

/-- Terminal outcome of the non-streaming pipeline: a returned response
or a raised `ChatCompletionError` with its status code. -/
inductive PipeResult where
  | ok (resp : String)
  | errorRaised (status_code : Int)
  deriving Repr, DecidableEq

/-- The `for attempt in range(max_retries)` loop of
`process_chat_completion`, instrumented with the list of adapter calls
it makes.  Arguments: remaining attempts, number of selections made so
far, `attempted_providers`, `last_error`. -/
def runAttempts (st : Store) (env : PipelineEnv) :
    Nat → Nat → List Nat → Option LastErr →
    List (Nat × CallResult) × PipeResult
  | 0, _, _, last => ([], .errorRaised (finalStatus last))
  | fuel + 1, selIdx, attempted, last =>
    match env.selectResult selIdx with
    | .routeError _ =>
      -- RouteServiceError: no status_code attribute, effective 500 → retry
      runAttempts st env fuel (selIdx + 1) attempted (some .route)
    | .ok provider_id _ =>
      if provider_id ∈ attempted then
        runAttempts st env fuel (selIdx + 1) attempted last
      else
        match getProvider st provider_id with
        | none => runAttempts st env fuel (selIdx + 1) (provider_id :: attempted) last
        | some _ =>
          match env.callResult provider_id with
          | .success resp => ([(provider_id, .success resp)], .ok resp)
          | .adapterError detail status =>
            if 400 ≤ pyOrStatus status 500 ∧ pyOrStatus status 500 < 500 then
              ([(provider_id, .adapterError detail status)],
               .errorRaised (pyOrStatus status 500))
            else
              ((provider_id, .adapterError detail status) ::
                 (runAttempts st env fuel (selIdx + 1) (provider_id :: attempted)
                   (some (.adapter status))).1,
               (runAttempts st env fuel (selIdx + 1) (provider_id :: attempted)
                   (some (.adapter status))).2)

/-- `process_chat_completion`: route lookup by name (default: the
request's `model` field), activity check, then the retry loop. -/
def process_chat_completion (st : Store) (env : PipelineEnv)
    (request_model : String) (route_name : Option String)
    (max_retries : Nat) : List (Nat × CallResult) × PipeResult :=
  let effective_route_name := route_name.getD request_model
  match st.routes.find? (fun r => r.name == effective_route_name) with
  | none => ([], .errorRaised 404)
  | some route =>
    if !route.is_active then ([], .errorRaised 400)
    else runAttempts st env max_retries 0 [] none

/-- Abort-on-4xx inside the attempt loop: if the `i`-th adapter call of a
run failed with a 4xx `ProviderAdapterError`, the run raised that status
and made no further adapter call. -/
theorem runAttempts_4xx_aborts (st : Store) (env : PipelineEnv) :
    ∀ (fuel selIdx : Nat) (attempted : List Nat) (last : Option LastErr)
      (i pid : Nat) (detail : String) (c : Int),
      (runAttempts st env fuel selIdx attempted last).1.get? i
        = some (pid, .adapterError detail (some c)) →
      400 ≤ c → c < 500 →
      (runAttempts st env fuel selIdx attempted last).2 = .errorRaised c ∧
      i + 1 = (runAttempts st env fuel selIdx attempted last).1.length := by
  intro fuel
  induction fuel with
  | zero =>
    intro selIdx attempted last i pid detail c htr _ _
    exact absurd htr (by simp [runAttempts])
  | succ fuel ih =>
    intro selIdx attempted last i pid detail c htr h4 h5
    rw [runAttempts] at htr ⊢
    cases hsel : env.selectResult selIdx with
    | routeError d =>
      rw [hsel] at htr
      exact ih _ _ _ i pid detail c htr h4 h5
    | ok pid2 model =>
      rw [hsel] at htr
      dsimp only at htr ⊢
      by_cases hmem : pid2 ∈ attempted
      · simp only [hmem, if_true, ite_true] at htr ⊢
        exact ih _ _ _ i pid detail c htr h4 h5
      · simp only [hmem, if_false, ite_false] at htr ⊢
        cases hprov : getProvider st pid2 with
        | none =>
          rw [hprov] at htr
          exact ih _ _ _ i pid detail c htr h4 h5
        | some p =>
          rw [hprov] at htr
          dsimp only at htr ⊢
          cases hcall : env.callResult pid2 with
          | success resp =>
            rw [hcall] at htr
            cases i with
            | zero =>
              have hpair := Option.some.inj htr
              exact CallResult.noConfusion (congrArg Prod.snd hpair)
            | succ j => exact Option.noConfusion htr
          | adapterError d2 status =>
            rw [hcall] at htr
            dsimp only at htr ⊢
            by_cases h4xx : 400 ≤ pyOrStatus status 500 ∧ pyOrStatus status 500 < 500
            · rw [if_pos h4xx] at htr ⊢
              cases i with
              | zero =>
                have hpair := Option.some.inj htr
                have hst := (CallResult.adapterError.inj (congrArg Prod.snd hpair)).2
                have heff : pyOrStatus status 500 = c := by
                  rw [hst, pyOrStatus]
                  exact if_neg (by omega)
                exact ⟨congrArg PipeResult.errorRaised heff, rfl⟩
              | succ j => exact Option.noConfusion htr
            · rw [if_neg h4xx] at htr ⊢
              cases i with
              | zero =>
                have hpair := Option.some.inj htr
                have hst := (CallResult.adapterError.inj (congrArg Prod.snd hpair)).2
                exfalso
                apply h4xx
                rw [hst, pyOrStatus]
                rw [if_neg (by omega)]
                exact ⟨h4, h5⟩
              | succ j =>
                obtain ⟨hres, hlen⟩ := ih _ _ _ j pid detail c htr h4 h5
                refine ⟨hres, ?_⟩
                show j + 1 + 1 = ((pid2, CallResult.adapterError d2 status) ::
                  (runAttempts st env fuel (selIdx + 1) (pid2 :: attempted)
                    (some (LastErr.adapter status))).1).length
                simp only [List.length_cons]
                omega

/-- C1: if an adapter attempt inside `process_chat_completion` fails with
a `ProviderError` whose status satisfies `400 ≤ status < 500`, the
pipeline raises an error with that same status immediately: the failing
call is the last adapter call of the run (no further provider is
attempted). -/
theorem C1_4xx_aborts_pipeline (st : Store) (env : PipelineEnv)
    (request_model : String) (route_name : Option String) (max_retries : Nat)
    (i pid : Nat) (detail : String) (c : Int)
    (htr : (process_chat_completion st env request_model route_name max_retries).1.get? i
      = some (pid, .adapterError detail (some c)))
    (h4 : 400 ≤ c) (h5 : c < 500) :
    (process_chat_completion st env request_model route_name max_retries).2
      = .errorRaised c ∧
    i + 1 = (process_chat_completion st env request_model route_name max_retries).1.length := by
  rw [process_chat_completion] at htr ⊢
  cases hfind : st.routes.find? (fun r => r.name == route_name.getD request_model) with
  | none =>
    rw [hfind] at htr
    exact Option.noConfusion htr
  | some route =>
    rw [hfind] at htr
    dsimp only at htr ⊢
    by_cases hact : route.is_active
    · rw [hact] at htr ⊢
      simp only [Bool.not_true, Bool.false_eq_true, if_false, ite_false] at htr ⊢
      exact runAttempts_4xx_aborts st env max_retries 0 [] none i pid detail c htr h4 h5
    · simp only [Bool.not_eq_true] at hact
      rw [hact] at htr
      exact Option.noConfusion htr

/-- A pipeline environment whose only provider immediately answers 404. -/
def c1env : PipelineEnv :=
  { selectResult := fun _ => .ok 1 "m1",
    callResult := fun _ => .adapterError "Provider returned status 404" (some 404) }

def c1route : ModelRoute :=
  { id := 7, name := "r", mode := "auto",
    config := { selectedModels := [], providerMode := some "all" },
    is_active := true, route_nodes := [], created_at := none, updated_at := none }

def c1st : Store :=
  { providers := [c2p1], routes := [c1route],
    nextProviderId := 2, nextRouteId := 8 }

/-- Witness for C1: with three retries available, the 404 from the first
provider terminates the run after exactly one adapter call, with status
404. -/
theorem C1_4xx_aborts_pipeline_witness :
    (400 : Int) ≤ 404 ∧
    (process_chat_completion c1st c1env "gpt" (some "r") 3).2 = .errorRaised 404 ∧
    0 + 1 = (process_chat_completion c1st c1env "gpt" (some "r") 3).1.length :=
  ⟨by decide,
   (C1_4xx_aborts_pipeline c1st c1env "gpt" (some "r") 3 0 1
      "Provider returned status 404" 404 rfl (by decide) (by decide)).1,
   (C1_4xx_aborts_pipeline c1st c1env "gpt" (some "r") 3 0 1
      "Provider returned status 404" 404 rfl (by decide) (by decide)).2⟩

/-- Outcome of one health probe (`HealthChecker._check_provider_health`):
an HTTP response (success flag plus measured latency), an
`httpx.TimeoutException`, another `httpx.RequestError`, or any other
exception. -/
inductive ProbeOutcome where
  | httpResponse (is_success : Bool) (latency_ms : Int)
  | timeout
  | transportError
  | otherException
  deriving Repr, DecidableEq

/-- The provider-row transition of `HealthChecker._check_provider_health`
(the network interaction abstracted into the probe outcome, the wall
clock into `now`). -/
def _check_provider_health (failure_threshold : Int) (now : String)
    (provider : ExternalAPI) (outcome : ProbeOutcome) : ExternalAPI :=
  match outcome with
  | .httpResponse true lat =>
    { provider with
        latency_ms := some lat,
        last_tested_at := some now,
        status := "online",
        consecutive_failures := 0,
        is_healthy := true }
  | .httpResponse false lat =>
    { provider with
        latency_ms := some lat,
        last_tested_at := some now,
        status := "degraded",
        consecutive_failures := provider.consecutive_failures + 1,
        is_healthy := decide (provider.consecutive_failures + 1 < failure_threshold) }
  | .timeout =>
    { provider with
        status := "timeout",
        latency_ms := none,
        last_tested_at := some now,
        consecutive_failures := provider.consecutive_failures + 1,
        is_healthy := decide (provider.consecutive_failures + 1 < failure_threshold) }
  | .transportError =>
    { provider with
        status := "unreachable",
        latency_ms := none,
        last_tested_at := some now,
        consecutive_failures := provider.consecutive_failures + 1,
        is_healthy := decide (provider.consecutive_failures + 1 < failure_threshold) }
  | .otherException =>
    { provider with
        status := "error",
        latency_ms := none,
        last_tested_at := some now,
        consecutive_failures := provider.consecutive_failures + 1,
        is_healthy := decide (provider.consecutive_failures + 1 < failure_threshold) }

/-- `true` for every outcome that is not a 2xx response. -/
def isFailureOutcome : ProbeOutcome → Bool
  | .httpResponse true _ => false
  | _ => true

/-- C6: health-probe bookkeeping.  A 2xx probe sets `online`/`0`/healthy;
every non-success outcome increments `consecutive_failures` by one and
sets `is_healthy` exactly when the new count is below the threshold;
`consecutive_failures` stays non-negative; and with threshold 3, three
consecutive transport failures flip `is_healthy` to `false` while a
subsequent 2xx restores it and zeroes the counter. -/
theorem C6_health_checker_transitions (failure_threshold : Int) :
    (∀ (p : ExternalAPI) (now : String) (lat : Int),
      (_check_provider_health failure_threshold now p (.httpResponse true lat)).status = "online" ∧
      (_check_provider_health failure_threshold now p (.httpResponse true lat)).consecutive_failures = 0 ∧
      (_check_provider_health failure_threshold now p (.httpResponse true lat)).is_healthy = true) ∧
    (∀ (p : ExternalAPI) (now : String) (o : ProbeOutcome),
      isFailureOutcome o = true →
      (_check_provider_health failure_threshold now p o).consecutive_failures
          = p.consecutive_failures + 1 ∧
      ((_check_provider_health failure_threshold now p o).is_healthy = true ↔
        p.consecutive_failures + 1 < failure_threshold)) ∧
    (∀ (p : ExternalAPI) (now : String) (o : ProbeOutcome),
      0 ≤ p.consecutive_failures →
      0 ≤ (_check_provider_health failure_threshold now p o).consecutive_failures) ∧
    (∀ (p : ExternalAPI) (n1 n2 n3 n4 : String) (lat : Int),
      p.consecutive_failures = 0 → p.is_healthy = true →
      (_check_provider_health 3 n1 p .transportError).is_healthy = true ∧
      (_check_provider_health 3 n2
        (_check_provider_health 3 n1 p .transportError) .transportError).is_healthy = true ∧
      (_check_provider_health 3 n3 (_check_provider_health 3 n2
        (_check_provider_health 3 n1 p .transportError) .transportError)
          .transportError).is_healthy = false ∧
      (_check_provider_health 3 n4 (_check_provider_health 3 n3
        (_check_provider_health 3 n2 (_check_provider_health 3 n1 p
          .transportError) .transportError) .transportError)
            (.httpResponse true lat)).is_healthy = true ∧
      (_check_provider_health 3 n4 (_check_provider_health 3 n3
        (_check_provider_health 3 n2 (_check_provider_health 3 n1 p
          .transportError) .transportError) .transportError)
            (.httpResponse true lat)).consecutive_failures = 0) := by
  refine ⟨fun p now lat => ⟨rfl, rfl, rfl⟩, ?_, ?_, ?_⟩
  · intro p now o hfail
    cases o with
    | httpResponse b lat =>
      cases b with
      | false => simp [_check_provider_health]
      | true => exact absurd hfail (by simp [isFailureOutcome])
    | timeout => simp [_check_provider_health]
    | transportError => simp [_check_provider_health]
    | otherException => simp [_check_provider_health]
  · intro p now o hge
    cases o with
    | httpResponse b lat =>
      cases b with
      | false => simp [_check_provider_health]; omega
      | true => simp [_check_provider_health]
    | timeout => simp [_check_provider_health]; omega
    | transportError => simp [_check_provider_health]; omega
    | otherException => simp [_check_provider_health]; omega
  · intro p n1 n2 n3 n4 lat hcf hhe
    simp [_check_provider_health, hcf]

/-- Witness for C6 at the concrete provider with zero failures: the
third consecutive transport failure (threshold 3) flips `is_healthy` to
`false`, and a following 2xx restores it with zero failures. -/
theorem C6_health_checker_transitions_witness :
    c2p1.consecutive_failures = 0 ∧
    (_check_provider_health 3 "n3" (_check_provider_health 3 "n2"
      (_check_provider_health 3 "n1" c2p1 .transportError) .transportError)
        .transportError).is_healthy = false ∧
    (_check_provider_health 3 "n4" (_check_provider_health 3 "n3"
      (_check_provider_health 3 "n2" (_check_provider_health 3 "n1" c2p1
        .transportError) .transportError) .transportError)
          (.httpResponse true 5)).is_healthy = true ∧
    (_check_provider_health 3 "n4" (_check_provider_health 3 "n3"
      (_check_provider_health 3 "n2" (_check_provider_health 3 "n1" c2p1
        .transportError) .transportError) .transportError)
          (.httpResponse true 5)).consecutive_failures = 0 :=
  ⟨rfl,
   ((C6_health_checker_transitions 3).2.2.2 c2p1 "n1" "n2" "n3" "n4" 5 rfl rfl).2.2.1,
   ((C6_health_checker_transitions 3).2.2.2 c2p1 "n1" "n2" "n3" "n4" 5 rfl rfl).2.2.2.1,
   ((C6_health_checker_transitions 3).2.2.2 c2p1 "n1" "n2" "n3" "n4" 5 rfl rfl).2.2.2.2⟩

/-- One element of the Anthropic `content` array: `block.get("type")`
and `block.get("text", "")`. -/
structure AnthropicBlock where
  type : Option String
  text : Option String
  deriving Repr, DecidableEq

/-- `usage.get("input_tokens", 0)` / `usage.get("output_tokens", 0)`. -/
structure AnthropicUsage where
  input_tokens : Option Int
  output_tokens : Option Int
  deriving Repr, DecidableEq

/-- The fields of an Anthropic Messages response body that
`AnthropicAdapter.parse_response` reads; `none` is an absent key. -/
structure AnthropicResponse where
  content : Option (List AnthropicBlock)
  stop_reason : Option String
  usage : Option AnthropicUsage
  deriving Repr, DecidableEq

/-- Canonical `usage` object. -/
structure Usage where
  prompt_tokens : Int
  completion_tokens : Int
  total_tokens : Int
  deriving Repr, DecidableEq

structure ChatMessageOut where
  role : String
  content : String
  deriving Repr, DecidableEq

structure ChoiceOut where
  index : Nat
  message : ChatMessageOut
  finish_reason : Option String
  deriving Repr, DecidableEq

/-- Canonical `chat.completion` response object (`created` is the wall
clock `int(time.time())`, passed in). -/
structure ChatCompletionResponse where
  id : String
  object : String
  created : Int
  model : String
  choices : List ChoiceOut
  usage : Option Usage
  deriving Repr, DecidableEq

/-- The `content` accumulation loop of `AnthropicAdapter.parse_response`:
`content += block.get("text", "")` for every block whose type is
`"text"`, guarded by `if "content" in response_data and
response_data["content"]`. -/
def anthropicContent (rd : AnthropicResponse) : String :=
  match rd.content with
  | none => ""
  | some blocks =>
    if blocks ≠ [] then
      String.join (blocks.map (fun b =>
        if b.type = some "text" then b.text.getD "" else ""))
    else ""

/-- `stop_reason_map.get(stop_reason, stop_reason)`. -/
def anthropic_stop_reason_map (s : String) : String :=
  if s = "end_turn" then "stop"
  else if s = "max_tokens" then "length"
  else if s = "stop_sequence" then "stop"
  else s

/-- `AnthropicAdapter.parse_response`. -/
def anthropic_parse_response (rd : AnthropicResponse) (model : String)
    (request_id : String) (now : Int) : ChatCompletionResponse :=
  { id := request_id, object := "chat.completion", created := now,
    model := model,
    choices := [{ index := 0,
                  message := { role := "assistant", content := anthropicContent rd },
                  finish_reason := rd.stop_reason.map anthropic_stop_reason_map }],
    usage := rd.usage.map (fun u =>
      { prompt_tokens := u.input_tokens.getD 0,
        completion_tokens := u.output_tokens.getD 0,
        total_tokens := u.input_tokens.getD 0 + u.output_tokens.getD 0 }) }

/-- Spec-side reading of "the concatenation of the text of all content
blocks with type text". -/
def textBlocksConcat (blocks : List AnthropicBlock) : String :=
  String.join ((blocks.filter (fun b => b.type == some "text")).map
    (fun b => b.text.getD ""))

theorem string_join_cons (s : String) (l : List String) :
    String.join (s :: l) = s ++ String.join l := by
  apply String.ext
  simp [String.data_join]

/-- Skipping non-text blocks with an empty contribution equals
concatenating only the text blocks. -/
theorem anthropicContent_eq_textBlocksConcat (rd : AnthropicResponse) :
    anthropicContent rd = textBlocksConcat (rd.content.getD []) := by
  rw [anthropicContent]
  cases rd.content with
  | none => rfl
  | some blocks =>
    simp only [Option.getD_some]
    have key : ∀ bs : List AnthropicBlock,
        String.join (bs.map (fun b =>
          if b.type = some "text" then b.text.getD "" else "")) =
        textBlocksConcat bs := by
      intro bs
      induction bs with
      | nil => rfl
      | cons b rest ih =>
        rw [textBlocksConcat, List.filter_cons]
        by_cases hb : b.type = some "text"
        · simp only [hb, if_true, ite_true, List.map_cons, string_join_cons,
            beq_self_eq_true, List.map]
          rw [← textBlocksConcat, ih]
        · have hb2 : (b.type == some "text") = false := by
            simpa using hb
          simp only [hb, if_false, ite_false, List.map_cons, string_join_cons, hb2,
            Bool.false_eq_true]
          rw [← textBlocksConcat, ih, String.empty_append]
    by_cases hbs : blocks = []
    · subst hbs; rfl
    · simp only [hbs, ne_eq, not_false_eq_true, if_true, ite_true]
      exact key blocks

/-- C8: the Anthropic adapter's response normalisation.  Concretely the
S5 body maps to content `"Hi"`, finish `"stop"`, usage `(3, 2, 5)`; in
general the content is the concatenation of all `"text"`-typed blocks,
`end_turn`/`stop_sequence` map to `stop` and `max_tokens` to `length`,
and `total_tokens` is always `prompt_tokens + completion_tokens`. -/
theorem C8_anthropic_parse_response_normalisation :
    ((anthropic_parse_response
        { content := some [{ type := some "text", text := some "Hi" }],
          stop_reason := some "end_turn",
          usage := some { input_tokens := some 3, output_tokens := some 2 } }
        "claude-3" "chatcmpl-abc" 123).choices =
      [{ index := 0, message := { role := "assistant", content := "Hi" },
         finish_reason := some "stop" }] ∧
     (anthropic_parse_response
        { content := some [{ type := some "text", text := some "Hi" }],
          stop_reason := some "end_turn",
          usage := some { input_tokens := some 3, output_tokens := some 2 } }
        "claude-3" "chatcmpl-abc" 123).usage =
      some { prompt_tokens := 3, completion_tokens := 2, total_tokens := 5 }) ∧
    (∀ (rd : AnthropicResponse) (model rid : String) (now : Int),
      (anthropic_parse_response rd model rid now).choices =
        [{ index := 0,
           message := { role := "assistant",
                        content := textBlocksConcat (rd.content.getD []) },
           finish_reason := rd.stop_reason.map anthropic_stop_reason_map }]) ∧
    (anthropic_stop_reason_map "end_turn" = "stop" ∧
     anthropic_stop_reason_map "stop_sequence" = "stop" ∧
     anthropic_stop_reason_map "max_tokens" = "length") ∧
    (∀ (rd : AnthropicResponse) (model rid : String) (now : Int) (u : Usage),
      (anthropic_parse_response rd model rid now).usage = some u →
      u.total_tokens = u.prompt_tokens + u.completion_tokens) := by
  refine ⟨⟨by rfl, by rfl⟩, ?_, ⟨rfl, rfl, rfl⟩, ?_⟩
  · intro rd model rid now
    rw [anthropic_parse_response]
    rw [anthropicContent_eq_textBlocksConcat]
  · intro rd model rid now u hu
    rw [anthropic_parse_response] at hu
    cases hru : rd.usage with
    | none => rw [hru] at hu; exact Option.noConfusion hu
    | some u0 =>
      rw [hru] at hu
      have := Option.some.inj hu
      rw [← this]

/-- Witness for C8's universally quantified usage part at the concrete
S5 body. -/
theorem C8_anthropic_parse_response_witness :
    (anthropic_parse_response
        { content := some [{ type := some "text", text := some "Hi" }],
          stop_reason := some "end_turn",
          usage := some { input_tokens := some 3, output_tokens := some 2 } }
        "claude-3" "chatcmpl-abc" 123).usage =
      some { prompt_tokens := 3, completion_tokens := 2, total_tokens := 5 } ∧
    (5 : Int) = 3 + 2 :=
  ⟨rfl,
   C8_anthropic_parse_response_normalisation.2.2.2
     { content := some [{ type := some "text", text := some "Hi" }],
       stop_reason := some "end_turn",
       usage := some { input_tokens := some 3, output_tokens := some 2 } }
     "claude-3" "chatcmpl-abc" 123
     { prompt_tokens := 3, completion_tokens := 2, total_tokens := 5 } rfl⟩

/-- The URL construction of `GeminiAdapter.build_request`: suffix chosen
by `request.stream`, then `url = f"{url}&key={self.api_key}"`
unconditionally appended with an ampersand.  `base_url` is the
adapter's `self.base_url` (already `rstrip("/")`-normalised in
`ProviderAdapter.__init__`). -/
def gemini_build_url (base_url api_key model : String) (stream : Bool) : String :=
  let stream_suffix :=
    if stream then ":streamGenerateContent?alt=sse" else ":generateContent"
  let url := base_url ++ "/v1/models/" ++ model ++ stream_suffix
  url ++ "&key=" ++ api_key

/-- C9: the Gemini request URL.  For streaming requests the URL matches
the claim (`?alt=sse&key=...`), but for non-streaming requests the code
appends `&key=` without any `?`, so the key is not introduced as a query
parameter: the URL is `<base>/v1/models/<model>:generateContent&key=<key>`,
not the claimed `...:generateContent?key=<key>`. -/
theorem C9_gemini_url_ampersand_bug :
    (∀ base key model, gemini_build_url base key model false =
       base ++ "/v1/models/" ++ model ++ ":generateContent" ++ "&key=" ++ key) ∧
    (∀ base key model, gemini_build_url base key model true =
       base ++ "/v1/models/" ++ model ++ ":streamGenerateContent?alt=sse" ++ "&key=" ++ key) ∧
    gemini_build_url "https://generativelanguage.googleapis.com" "test-key"
        "gemini-pro" false =
      "https://generativelanguage.googleapis.com/v1/models/gemini-pro:generateContent&key=test-key" ∧
    gemini_build_url "https://generativelanguage.googleapis.com" "test-key"
        "gemini-pro" false ≠
      "https://generativelanguage.googleapis.com/v1/models/gemini-pro:generateContent?key=test-key" ∧
    gemini_build_url "https://generativelanguage.googleapis.com" "test-key"
        "gemini-pro" true =
      "https://generativelanguage.googleapis.com/v1/models/gemini-pro:streamGenerateContent?alt=sse&key=test-key" := by
  exact ⟨fun base key model => rfl, fun base key model => rfl, rfl,
    by decide, rfl⟩

/-- One provider object of the snapshot file, with exactly the keys
`_serialize_provider` writes and `restore_from_backup` reads.  An
absent/null `name` and the empty string are both falsy in
`if not name: continue`; the empty string stands for both. -/
structure ProviderItem where
  name : String
  base_url : String
  api_key_encrypted : String
  models : List String
  is_active : Bool
  status : String
  latency_ms : Option Int
  last_tested_at : Option String
  consecutive_failures : Int
  is_healthy : Bool
  created_at : Option String
  updated_at : Option String
  deriving Repr, DecidableEq

/-- One node object inside a snapshot route (`_serialize_route_node`). -/
structure NodeItem where
  api_name : String
  models : List String
  strategy : String
  priority : Int
  node_metadata : List (String × String)
  deriving Repr, DecidableEq

/-- One route object of the snapshot file. -/
structure RouteItem where
  name : String
  mode : String
  config : RouteConfig
  is_active : Bool
  nodes : List NodeItem
  created_at : Option String
  updated_at : Option String
  deriving Repr, DecidableEq

/-- The snapshot payload (`write_backup`'s JSON object, structured). -/
structure Snapshot where
  generated_at : String
  providers : List ProviderItem
  routes : List RouteItem
  deriving Repr, DecidableEq

/-- Stable insertion sort by primary key: `order_by(ExternalAPI.id)`. -/
def insertById (p : ExternalAPI) : List ExternalAPI → List ExternalAPI
  | [] => [p]
  | q :: qs => if p.id < q.id then p :: q :: qs else q :: insertById p qs

def sortById : List ExternalAPI → List ExternalAPI
  | [] => []
  | p :: ps => insertById p (sortById ps)

/-- Stable insertion sort by primary key: `order_by(ModelRoute.id)`. -/
def insertRouteById (r : ModelRoute) : List ModelRoute → List ModelRoute
  | [] => [r]
  | q :: qs => if r.id < q.id then r :: q :: qs else q :: insertRouteById r qs

def sortRoutesById : List ModelRoute → List ModelRoute
  | [] => []
  | r :: rs => insertRouteById r (sortRoutesById rs)

/-- `_serialize_provider`. -/
def _serialize_provider (p : ExternalAPI) : ProviderItem :=
  { name := p.name, base_url := p.base_url,
    api_key_encrypted := p.api_key_encrypted, models := p.models,
    is_active := p.is_active, status := p.status, latency_ms := p.latency_ms,
    last_tested_at := p.last_tested_at,
    consecutive_failures := p.consecutive_failures, is_healthy := p.is_healthy,
    created_at := p.created_at, updated_at := p.updated_at }

/-- `_serialize_route_node`: the node's provider referenced by name; an
unresolvable provider serialises to a falsy name (`None` in the JSON). -/
def _serialize_route_node (st : Store) (node : RouteNode) : NodeItem :=
  { api_name :=
      match getProvider st node.api_id with
      | some p => p.name
      | none => "",
    models := node.models, strategy := node.strategy,
    priority := node.priority, node_metadata := node.node_metadata }

/-- `_serialize_route`. -/
def _serialize_route (st : Store) (r : ModelRoute) : RouteItem :=
  { name := r.name, mode := r.mode, config := r.config,
    is_active := r.is_active,
    nodes := r.route_nodes.map (_serialize_route_node st),
    created_at := r.created_at, updated_at := r.updated_at }

/-- The snapshot payload `write_backup` assembles (`generated_at` is the
wall clock, passed in). -/
def buildSnapshot (st : Store) (now : String) : Snapshot :=
  { generated_at := now,
    providers := (sortById st.providers).map _serialize_provider,
    routes := (sortRoutesById st.routes).map (_serialize_route st) }

/-- A file-system operation performed by `write_backup`; the JSON text is
abstracted to the structured payload it encodes. -/
inductive FsOp where
  | mkdirParents (dir : String)
  | writeText (path : String) (payload : Snapshot)
  | renameFile (src dst : String)
  deriving Repr, DecidableEq

/-- `pathlib`'s `.parent`, far enough for paths with a directory
component (corner cases are irrelevant to the claims). -/
def parentDir (path : String) : String :=
  match (path.splitOn "/").dropLast with
  | [] => "."
  | parts => String.intercalate "/" parts

/-- `write_backup` as its sequence of file-system operations:
`backup_path.parent.mkdir(parents=True, exist_ok=True)` followed by a
direct `backup_path.write_text(json.dumps(payload))`. -/
def write_backup (backup_path : String) (st : Store) (now : String) :
    List FsOp :=
  [.mkdirParents (parentDir backup_path),
   .writeText backup_path (buildSnapshot st now)]

/-- `_parse_datetime`: falsy input gives `None`; a malformed string also
gives `None`.  ISO-8601 parsing is abstracted: every non-empty string is
treated as well-formed (determinism is all the claims need). -/
def parse_datetime (value : Option String) : Option String :=
  match value with
  | none => none
  | some s => if s = "" then none else some s

/-- `provider_name_map` as an insertion-ordered association list:
a cons overwrites earlier entries for the same key. -/
def mapLookup (m : List (String × Nat)) (k : String) : Option Nat :=
  (m.find? (fun e => e.1 == k)).map (fun e => e.2)

/-- `session.query(ExternalAPI).filter(name == ...)` result set. -/
def providersNamed (ps : List ExternalAPI) (name : String) : List ExternalAPI :=
  ps.filter (fun p => p.name == name)

/-- `.one_or_none()`: `MultipleResultsFound` on two or more rows. -/
def oneOrNoneP (ps : List ExternalAPI) (name : String) :
    Except String (Option ExternalAPI) :=
  match providersNamed ps name with
  | [] => .ok none
  | [p] => .ok (some p)
  | _ => .error "MultipleResultsFound"

/-- The `attrs` dictionary applied to an existing provider row: every
column except `id`, `name`, `created_at`, `updated_at`. -/
def setProviderAttrs (item : ProviderItem) (p : ExternalAPI) : ExternalAPI :=
  { p with
      base_url := item.base_url,
      api_key_encrypted := item.api_key_encrypted,
      models := item.models,
      is_active := item.is_active,
      status := item.status,
      latency_ms := item.latency_ms,
      last_tested_at := parse_datetime item.last_tested_at,
      consecutive_failures := item.consecutive_failures,
      is_healthy := item.is_healthy }

/-- A freshly inserted provider row: attrs from the snapshot, timestamps
from the snapshot when parseable (else the server default, `none`). -/
def newProviderFrom (item : ProviderItem) (pid : Nat) : ExternalAPI :=
  { id := pid, name := item.name, base_url := item.base_url,
    api_key_encrypted := item.api_key_encrypted, models := item.models,
    is_active := item.is_active, status := item.status,
    latency_ms := item.latency_ms,
    last_tested_at := parse_datetime item.last_tested_at,
    consecutive_failures := item.consecutive_failures,
    is_healthy := item.is_healthy,
    created_at := parse_datetime item.created_at,
    updated_at := parse_datetime item.updated_at }

/-- In-place attribute update of the (unique) provider row named `name`. -/
def updateProviderIn (ps : List ExternalAPI) (name : String)
    (item : ProviderItem) : List ExternalAPI :=
  ps.map (fun p => if p.name == name then setProviderAttrs item p else p)

/-- State threaded through the provider loop of `restore_from_backup`. -/
structure ProvPhase where
  providers : List ExternalAPI
  nextId : Nat
  nameMap : List (String × Nat)
  count : Nat
  deriving Repr

/-- One iteration of the provider loop: skip a falsy name, else upsert by
name and record the row in `provider_name_map`. -/
def restoreProviderItem (ph : ProvPhase) (item : ProviderItem) :
    Except String ProvPhase :=
  if item.name = "" then .ok ph
  else
    match oneOrNoneP ph.providers item.name with
    | .error e => .error e
    | .ok none =>
      .ok { providers := ph.providers ++ [newProviderFrom item ph.nextId],
            nextId := ph.nextId + 1,
            nameMap := (item.name, ph.nextId) :: ph.nameMap,
            count := ph.count + 1 }
    | .ok (some p) =>
      .ok { providers := updateProviderIn ph.providers item.name item,
            nextId := ph.nextId,
            nameMap := (item.name, p.id) :: ph.nameMap,
            count := ph.count + 1 }

def restoreProvidersFold (ph : ProvPhase) :
    List ProviderItem → Except String ProvPhase
  | [] => .ok ph
  | item :: rest =>
    match restoreProviderItem ph item with
    | .error e => .error e
    | .ok ph2 => restoreProvidersFold ph2 rest

/-- `api_name → api_id` resolution of a route's snapshot nodes: nodes
with a falsy or unknown provider name are skipped. -/
def resolveNodes (m : List (String × Nat)) (items : List NodeItem) :
    List RouteNode :=
  items.filterMap (fun ni =>
    if ni.api_name = "" then none
    else
      match mapLookup m ni.api_name with
      | none => none
      | some pid =>
        some { api_id := pid, models := ni.models, strategy := ni.strategy,
               priority := ni.priority, node_metadata := ni.node_metadata })

def routesNamed (rs : List ModelRoute) (name : String) : List ModelRoute :=
  rs.filter (fun r => r.name == name)

def oneOrNoneR (rs : List ModelRoute) (name : String) :
    Except String (Option ModelRoute) :=
  match routesNamed rs name with
  | [] => .ok none
  | [r] => .ok (some r)
  | _ => .error "MultipleResultsFound"

/-- `route_attrs` applied to an existing route, plus the delete-and-
reinsert of its nodes. -/
def setRouteAttrs (m : List (String × Nat)) (item : RouteItem)
    (r : ModelRoute) : ModelRoute :=
  { r with
      mode := item.mode,
      config := item.config,
      is_active := item.is_active,
      route_nodes := resolveNodes m item.nodes }

def newRouteFrom (m : List (String × Nat)) (item : RouteItem) (rid : Nat) :
    ModelRoute :=
  { id := rid, name := item.name, mode := item.mode, config := item.config,
    is_active := item.is_active, route_nodes := resolveNodes m item.nodes,
    created_at := parse_datetime item.created_at,
    updated_at := parse_datetime item.updated_at }

def updateRouteIn (rs : List ModelRoute) (m : List (String × Nat))
    (item : RouteItem) : List ModelRoute :=
  rs.map (fun r => if r.name == item.name then setRouteAttrs m item r else r)

structure RoutePhase where
  routes : List ModelRoute
  nextId : Nat
  count : Nat
  deriving Repr

/-- One iteration of the route loop of `restore_from_backup`. -/
def restoreRouteItem (m : List (String × Nat)) (rp : RoutePhase)
    (item : RouteItem) : Except String RoutePhase :=
  if item.name = "" then .ok rp
  else
    match oneOrNoneR rp.routes item.name with
    | .error e => .error e
    | .ok none =>
      .ok { routes := rp.routes ++ [newRouteFrom m item rp.nextId],
            nextId := rp.nextId + 1,
            count := rp.count + 1 }
    | .ok (some _) =>
      .ok { routes := updateRouteIn rp.routes m item,
            nextId := rp.nextId,
            count := rp.count + 1 }

def restoreRoutesFold (m : List (String × Nat)) (rp : RoutePhase) :
    List RouteItem → Except String RoutePhase
  | [] => .ok rp
  | item :: rest =>
    match restoreRouteItem m rp item with
    | .error e => .error e
    | .ok rp2 => restoreRoutesFold m rp2 rest

/-- `restore_from_backup` on an already-read snapshot: the provider
upsert loop, a flush, the route upsert loop, one commit.  Returns the
new store with the `restored` counters; a raised `MultipleResultsFound`
surfaces as an error (the session is rolled back, leaving the store
unchanged). -/
def restore_from_backup (st : Store) (snap : Snapshot) :
    Except String (Store × Nat × Nat) :=
  match restoreProvidersFold
      { providers := st.providers, nextId := st.nextProviderId,
        nameMap := [], count := 0 } snap.providers with
  | .error e => .error e
  | .ok ph =>
    match restoreRoutesFold ph.nameMap
        { routes := st.routes, nextId := st.nextRouteId, count := 0 }
        snap.routes with
    | .error e => .error e
    | .ok rp =>
      .ok ({ providers := ph.providers, routes := rp.routes,
             nextProviderId := ph.nextId, nextRouteId := rp.nextId },
           ph.count, rp.count)

/-- The store after running restore: on an exception nothing is
committed, so the store is unchanged. -/
def runRestore (st : Store) (snap : Snapshot) : Store :=
  match restore_from_backup st snap with
  | .ok (st2, _, _) => st2
  | .error _ => st

/-- The claim's notion of atomicity for C4: the snapshot is never written
directly to the configured path; instead some temporary path is written
and then renamed onto the configured path. -/
def atomicViaTempRename (ops : List FsOp) (path : String) : Prop :=
  (∀ payload, FsOp.writeText path payload ∉ ops) ∧
  ∃ tmp, tmp ≠ path ∧ (∃ payload, FsOp.writeText tmp payload ∈ ops) ∧
    FsOp.renameFile tmp path ∈ ops

/-- C4 counterexample: `write_backup` writes the payload directly to the
configured path and performs no rename, so it is not atomic in the
claimed write-temp-then-rename sense. -/
theorem C4_counterexample :
    ¬ atomicViaTempRename (write_backup "/data/backup.json" c2st "t0")
        "/data/backup.json" := by
  intro h
  exact h.1 (buildSnapshot c2st "t0") (by simp [write_backup])

/-- C4 (amended): `write_backup` creates the parent directory and then
writes the snapshot JSON directly to the configured backup path — no
temporary file and no rename — so an interrupted call can leave a
partially written file visible at the configured path. -/
theorem C4_write_backup_writes_directly (backup_path : String) (st : Store)
    (now : String) :
    write_backup backup_path st now =
      [.mkdirParents (parentDir backup_path),
       .writeText backup_path (buildSnapshot st now)] ∧
    (∀ src dst, FsOp.renameFile src dst ∉ write_backup backup_path st now) := by
  refine ⟨rfl, ?_⟩
  intro src dst h
  simp [write_backup] at h

/-- Names of the snapshot provider items the restore loop acts on. -/
def actingNamesP (items : List ProviderItem) : List String :=
  (items.filter (fun i => !(i.name == ""))).map (fun i => i.name)

/-- Names of the snapshot route items the restore loop acts on. -/
def actingNamesR (items : List RouteItem) : List String :=
  (items.filter (fun i => !(i.name == ""))).map (fun i => i.name)

theorem providersNamed_append (ps qs : List ExternalAPI) (name : String) :
    providersNamed (ps ++ qs) name =
      providersNamed ps name ++ providersNamed qs name :=
  List.filter_append _ _

theorem setProviderAttrs_fix_new (item : ProviderItem) (pid : Nat) :
    setProviderAttrs item (newProviderFrom item pid) = newProviderFrom item pid := rfl

theorem setProviderAttrs_idem (item : ProviderItem) (p : ExternalAPI) :
    setProviderAttrs item (setProviderAttrs item p) = setProviderAttrs item p := rfl

theorem updateProviderIn_named (ps : List ExternalAPI) (name : String)
    (item : ProviderItem) :
    providersNamed (updateProviderIn ps name item) name =
      (providersNamed ps name).map (setProviderAttrs item) := by
  rw [providersNamed, updateProviderIn, List.filter_map, providersNamed]
  have hfil : List.filter
      ((fun q => q.name == name) ∘
        (fun p => if p.name == name then setProviderAttrs item p else p)) ps =
      List.filter (fun p => p.name == name) ps := by
    apply List.filter_congr
    intro p _
    by_cases h : p.name == name
    · simp only [Function.comp_apply, h, if_true, ite_true]
      exact h
    · simp only [Function.comp_apply, h, if_false, ite_false]
      simpa using h
  rw [hfil]
  apply List.map_congr_left
  intro p hp
  have := (List.mem_filter.mp hp).2
  simp only [this, if_true, ite_true]

theorem updateProviderIn_other (ps : List ExternalAPI) (name : String)
    (item : ProviderItem) (x : String) (hx : x ≠ name) :
    providersNamed (updateProviderIn ps name item) x = providersNamed ps x := by
  rw [providersNamed, updateProviderIn, List.filter_map, providersNamed]
  have hfil : List.filter
      ((fun q => q.name == x) ∘
        (fun p => if p.name == name then setProviderAttrs item p else p)) ps =
      List.filter (fun p => p.name == x) ps := by
    apply List.filter_congr
    intro p _
    by_cases h : p.name == name
    · simp only [Function.comp_apply, h, if_true, ite_true]
      rfl
    · simp only [Function.comp_apply, h, if_false, ite_false]
      simp
  rw [hfil]
  have : ∀ p ∈ List.filter (fun p => p.name == x) ps,
      (if p.name == name then setProviderAttrs item p else p) = p := by
    intro p hp
    have h2 := (List.mem_filter.mp hp).2
    have h3 : p.name = x := by simpa using h2
    have h4 : (p.name == name) = false := by
      simp [h3]
      exact hx
    simp [h4]
  rw [List.map_congr_left this]
  exact List.map_id _

theorem updateProviderIn_id (ps : List ExternalAPI) (name : String)
    (item : ProviderItem) (p : ExternalAPI)
    (hone : providersNamed ps name = [p])
    (hfix : setProviderAttrs item p = p) :
    updateProviderIn ps name item = ps := by
  rw [updateProviderIn]
  have : ∀ q ∈ ps, (if q.name == name then setProviderAttrs item q else q) = q := by
    intro q hq
    by_cases h : q.name == name
    · have hqf : q ∈ providersNamed ps name := List.mem_filter.2 ⟨hq, h⟩
      rw [hone] at hqf
      have hqp : q = p := List.mem_singleton.mp hqf
      subst hqp
      simp [h, hfix]
    · simp [h]
  rw [List.map_congr_left this]
  exact List.map_id _

theorem mapLookup_cons_self (name : String) (v : Nat)
    (mm : List (String × Nat)) :
    mapLookup ((name, v) :: mm) name = some v := by
  simp [mapLookup, List.find?]

theorem mapLookup_cons_other (name : String) (v : Nat)
    (mm : List (String × Nat)) (x : String) (hx : x ≠ name) :
    mapLookup ((name, v) :: mm) x = mapLookup mm x := by
  rw [mapLookup, mapLookup]
  have : ((name, v).1 == x) = false := by
    simp
    exact fun h => hx h.symm
  rw [List.find?]
  simp [this]

theorem oneOrNoneP_none (ps : List ExternalAPI) (name : String)
    (h : oneOrNoneP ps name = .ok none) : providersNamed ps name = [] := by
  rw [oneOrNoneP] at h
  cases hpn : providersNamed ps name with
  | nil => rfl
  | cons a as =>
    rw [hpn] at h
    cases as with
    | nil => simp at h
    | cons b bs => exact Except.noConfusion h

theorem oneOrNoneP_some (ps : List ExternalAPI) (name : String)
    (p : ExternalAPI) (h : oneOrNoneP ps name = .ok (some p)) :
    providersNamed ps name = [p] := by
  rw [oneOrNoneP] at h
  cases hpn : providersNamed ps name with
  | nil => rw [hpn] at h; simp at h
  | cons a as =>
    rw [hpn] at h
    cases as with
    | nil =>
      have : a = p := by simpa using h
      rw [this]
    | cons b bs => exact Except.noConfusion h

/-- Forward invariant of the provider restore loop: after a successful
run with distinct acting names, every acting item has exactly one row
with its name, whose attributes already match the item, and the name map
resolves its name to that row's id; names outside the snapshot keep
their rows and map entries. -/
theorem restoreProvidersFold_run1 :
    ∀ (items : List ProviderItem) (ph ph' : ProvPhase),
      (actingNamesP items).Nodup →
      restoreProvidersFold ph items = .ok ph' →
      (∀ item ∈ items, item.name ≠ "" →
        ∃ p, providersNamed ph'.providers item.name = [p] ∧
          setProviderAttrs item p = p ∧
          mapLookup ph'.nameMap item.name = some p.id) ∧
      (∀ x, x ∉ actingNamesP items →
        mapLookup ph'.nameMap x = mapLookup ph.nameMap x ∧
        providersNamed ph'.providers x = providersNamed ph.providers x) := by
  intro items
  induction items with
  | nil =>
    intro ph ph' hnd hfold
    have heq : ph = ph' := by
      rw [restoreProvidersFold] at hfold
      exact Except.ok.inj hfold
    subst heq
    exact ⟨by simp, fun x _ => ⟨rfl, rfl⟩⟩
  | cons item rest ih =>
    intro ph ph' hnd hfold
    rw [restoreProvidersFold] at hfold
    by_cases hskip : item.name = ""
    · have hstep : restoreProviderItem ph item = .ok ph := by
        rw [restoreProviderItem, if_pos hskip]
      rw [hstep] at hfold
      have hnames : actingNamesP (item :: rest) = actingNamesP rest := by
        rw [actingNamesP, List.filter_cons]
        simp only [hskip]
        rw [show ((!("" == ""))) = false from rfl]
        simp [actingNamesP]
      rw [hnames] at hnd
      obtain ⟨A, B⟩ := ih ph ph' hnd hfold
      refine ⟨?_, ?_⟩
      · intro it hit hActIt
        rcases List.mem_cons.mp hit with h | h
        · subst h; exact absurd hskip hActIt
        · exact A it h hActIt
      · intro x hx
        rw [hnames] at hx
        exact B x hx
    · rw [restoreProviderItem, if_neg hskip] at hfold
      have hnames : actingNamesP (item :: rest) = item.name :: actingNamesP rest := by
        rw [actingNamesP, List.filter_cons]
        have : (!(item.name == "")) = true := by simpa using hskip
        rw [this]
        simp [actingNamesP]
      rw [hnames] at hnd
      have hnd2 : (actingNamesP rest).Nodup := (List.nodup_cons.mp hnd).2
      have hnotin : item.name ∉ actingNamesP rest := (List.nodup_cons.mp hnd).1
      cases honp : oneOrNoneP ph.providers item.name with
      | error e => rw [honp] at hfold; exact Except.noConfusion hfold
      | ok opt =>
        rw [honp] at hfold
        cases opt with
        | none =>
          obtain ⟨A, B⟩ := ih _ ph' hnd2 hfold
          have h0 : providersNamed ph.providers item.name = [] :=
            oneOrNoneP_none _ _ honp
          have hnew_named :
              providersNamed (ph.providers ++ [newProviderFrom item ph.nextId])
                item.name = [newProviderFrom item ph.nextId] := by
            rw [providersNamed_append, h0]
            simp [providersNamed, newProviderFrom]
          refine ⟨?_, ?_⟩
          · intro it hit hActIt
            rcases List.mem_cons.mp hit with h | h
            · subst h
              obtain ⟨Bmap, Bprov⟩ := B it.name hnotin
              refine ⟨newProviderFrom it ph.nextId, ?_,
                setProviderAttrs_fix_new it ph.nextId, ?_⟩
              · rw [Bprov]; exact hnew_named
              · rw [Bmap, mapLookup_cons_self]
                rfl
            · exact A it h hActIt
          · intro x hx
            have hx1 : x ≠ item.name := by
              intro he
              exact hx (by rw [he, hnames]; exact List.mem_cons_self _ _)
            have hx2 : x ∉ actingNamesP rest := by
              intro he
              exact hx (by rw [hnames]; exact List.mem_cons_of_mem _ he)
            obtain ⟨Bmap, Bprov⟩ := B x hx2
            refine ⟨?_, ?_⟩
            · rw [Bmap, mapLookup_cons_other _ _ _ _ hx1]
            · rw [Bprov, providersNamed_append]
              have : providersNamed [newProviderFrom item ph.nextId] x = [] := by
                simp [providersNamed, newProviderFrom]
                intro he
                exact absurd he.symm hx1
              rw [this, List.append_nil]
        | some p =>
          obtain ⟨A, B⟩ := ih _ ph' hnd2 hfold
          have hpn : providersNamed ph.providers item.name = [p] :=
            oneOrNoneP_some _ _ _ honp
          refine ⟨?_, ?_⟩
          · intro it hit hActIt
            rcases List.mem_cons.mp hit with h | h
            · subst h
              obtain ⟨Bmap, Bprov⟩ := B it.name hnotin
              refine ⟨setProviderAttrs it p, ?_,
                setProviderAttrs_idem it p, ?_⟩
              · rw [Bprov, updateProviderIn_named, hpn]
                rfl
              · rw [Bmap, mapLookup_cons_self]
                rfl
            · exact A it h hActIt
          · intro x hx
            have hx1 : x ≠ item.name := by
              intro he
              exact hx (by rw [he, hnames]; exact List.mem_cons_self _ _)
            have hx2 : x ∉ actingNamesP rest := by
              intro he
              exact hx (by rw [hnames]; exact List.mem_cons_of_mem _ he)
            obtain ⟨Bmap, Bprov⟩ := B x hx2
            exact ⟨by rw [Bmap, mapLookup_cons_other _ _ _ _ hx1],
              by rw [Bprov, updateProviderIn_other _ _ _ _ hx1]⟩

/-- Second-run identity of the provider restore loop: from a store in
which every acting item already has exactly one matching row, the loop
changes neither the rows nor the id counter, and rebuilds a name map
that resolves each acting name to the id of its (unchanged) row. -/
theorem restoreProvidersFold_synced :
    ∀ (items : List ProviderItem) (ph : ProvPhase),
      (actingNamesP items).Nodup →
      (∀ item ∈ items, item.name ≠ "" →
        ∃ p, providersNamed ph.providers item.name = [p] ∧
          setProviderAttrs item p = p) →
      ∃ ph2, restoreProvidersFold ph items = .ok ph2 ∧
        ph2.providers = ph.providers ∧ ph2.nextId = ph.nextId ∧
        (∀ item ∈ items, item.name ≠ "" →
          ∃ p, providersNamed ph.providers item.name = [p] ∧
            mapLookup ph2.nameMap item.name = some p.id) ∧
        (∀ x, x ∉ actingNamesP items →
          mapLookup ph2.nameMap x = mapLookup ph.nameMap x) := by
  intro items
  induction items with
  | nil =>
    intro ph _ _
    exact ⟨ph, rfl, rfl, rfl, by simp, fun x _ => rfl⟩
  | cons item rest ih =>
    intro ph hnd hsync
    by_cases hskip : item.name = ""
    · have hnames : actingNamesP (item :: rest) = actingNamesP rest := by
        rw [actingNamesP, List.filter_cons]
        simp only [hskip]
        rw [show ((!("" == ""))) = false from rfl]
        simp [actingNamesP]
      rw [hnames] at hnd
      obtain ⟨ph2, hfold2, hprov2, hnext2, hA2, hB2⟩ :=
        ih ph hnd (fun it hit hA => hsync it (List.mem_cons_of_mem _ hit) hA)
      refine ⟨ph2, ?_, hprov2, hnext2, ?_, ?_⟩
      · rw [restoreProvidersFold, restoreProviderItem, if_pos hskip]
        exact hfold2
      · intro it hit hActIt
        rcases List.mem_cons.mp hit with h | h
        · subst h; exact absurd hskip hActIt
        · exact hA2 it h hActIt
      · intro x hx
        rw [hnames] at hx
        exact hB2 x hx
    · have hnames : actingNamesP (item :: rest) = item.name :: actingNamesP rest := by
        rw [actingNamesP, List.filter_cons]
        have : (!(item.name == "")) = true := by simpa using hskip
        rw [this]
        simp [actingNamesP]
      rw [hnames] at hnd
      have hnd2 : (actingNamesP rest).Nodup := (List.nodup_cons.mp hnd).2
      have hnotin : item.name ∉ actingNamesP rest := (List.nodup_cons.mp hnd).1
      obtain ⟨p, hpn, hfix⟩ := hsync item (List.mem_cons_self _ _) hskip
      have hupd : updateProviderIn ph.providers item.name item = ph.providers :=
        updateProviderIn_id _ _ _ _ hpn hfix
      have honp : oneOrNoneP ph.providers item.name = .ok (some p) := by
        rw [oneOrNoneP, hpn]
      obtain ⟨ph2, hfold2, hprov2, hnext2, hA2, hB2⟩ :=
        ih { providers := ph.providers, nextId := ph.nextId,
             nameMap := (item.name, p.id) :: ph.nameMap, count := ph.count + 1 }
          hnd2 (fun it hit hA => hsync it (List.mem_cons_of_mem _ hit) hA)
      refine ⟨ph2, ?_, hprov2, hnext2, ?_, ?_⟩
      · have hstep : restoreProviderItem ph item =
            .ok { providers := ph.providers,
                  nextId := ph.nextId,
                  nameMap := (item.name, p.id) :: ph.nameMap,
                  count := ph.count + 1 } := by
          rw [restoreProviderItem, if_neg hskip, honp]
          dsimp only
          rw [hupd]
        rw [restoreProvidersFold, hstep]
        exact hfold2
      · intro it hit hActIt
        rcases List.mem_cons.mp hit with h | h
        · subst h
          refine ⟨p, hpn, ?_⟩
          rw [hB2 it.name hnotin, mapLookup_cons_self]
        · exact hA2 it h hActIt
      · intro x hx
        have hx1 : x ≠ item.name := by
          intro he
          exact hx (by rw [he, hnames]; exact List.mem_cons_self _ _)
        have hx2 : x ∉ actingNamesP rest := by
          intro he
          exact hx (by rw [hnames]; exact List.mem_cons_of_mem _ he)
        rw [hB2 x hx2, mapLookup_cons_other _ _ _ _ hx1]

theorem routesNamed_append (rs qs : List ModelRoute) (name : String) :
    routesNamed (rs ++ qs) name = routesNamed rs name ++ routesNamed qs name :=
  List.filter_append _ _

theorem setRouteAttrs_fix_new (m : List (String × Nat)) (item : RouteItem)
    (rid : Nat) :
    setRouteAttrs m item (newRouteFrom m item rid) = newRouteFrom m item rid := rfl

theorem setRouteAttrs_idem (m : List (String × Nat)) (item : RouteItem)
    (r : ModelRoute) :
    setRouteAttrs m item (setRouteAttrs m item r) = setRouteAttrs m item r := rfl

theorem updateRouteIn_named (rs : List ModelRoute) (m : List (String × Nat))
    (item : RouteItem) :
    routesNamed (updateRouteIn rs m item) item.name =
      (routesNamed rs item.name).map (setRouteAttrs m item) := by
  rw [routesNamed, updateRouteIn, List.filter_map, routesNamed]
  have hfil : List.filter
      ((fun q => q.name == item.name) ∘
        (fun r => if r.name == item.name then setRouteAttrs m item r else r)) rs =
      List.filter (fun r => r.name == item.name) rs := by
    apply List.filter_congr
    intro r _
    by_cases h : r.name == item.name
    · simp only [Function.comp_apply, h, if_true, ite_true]
      exact h
    · simp only [Function.comp_apply, h, if_false, ite_false]
      simpa using h
  rw [hfil]
  apply List.map_congr_left
  intro r hr
  have := (List.mem_filter.mp hr).2
  simp only [this, if_true, ite_true]

theorem updateRouteIn_other (rs : List ModelRoute) (m : List (String × Nat))
    (item : RouteItem) (x : String) (hx : x ≠ item.name) :
    routesNamed (updateRouteIn rs m item) x = routesNamed rs x := by
  rw [routesNamed, updateRouteIn, List.filter_map, routesNamed]
  have hfil : List.filter
      ((fun q => q.name == x) ∘
        (fun r => if r.name == item.name then setRouteAttrs m item r else r)) rs =
      List.filter (fun r => r.name == x) rs := by
    apply List.filter_congr
    intro r _
    by_cases h : r.name == item.name
    · simp only [Function.comp_apply, h, if_true, ite_true]
      rfl
    · simp only [Function.comp_apply, h, if_false, ite_false]
      simp
  rw [hfil]
  have : ∀ r ∈ List.filter (fun r => r.name == x) rs,
      (if r.name == item.name then setRouteAttrs m item r else r) = r := by
    intro r hr
    have h2 := (List.mem_filter.mp hr).2
    have h3 : r.name = x := by simpa using h2
    have h4 : (r.name == item.name) = false := by
      simp [h3]
      exact hx
    simp [h4]
  rw [List.map_congr_left this]
  exact List.map_id _

theorem updateRouteIn_id (rs : List ModelRoute) (m : List (String × Nat))
    (item : RouteItem) (r : ModelRoute)
    (hone : routesNamed rs item.name = [r])
    (hfix : setRouteAttrs m item r = r) :
    updateRouteIn rs m item = rs := by
  rw [updateRouteIn]
  have : ∀ q ∈ rs, (if q.name == item.name then setRouteAttrs m item q else q) = q := by
    intro q hq
    by_cases h : q.name == item.name
    · have hqf : q ∈ routesNamed rs item.name := List.mem_filter.2 ⟨hq, h⟩
      rw [hone] at hqf
      have hqr : q = r := List.mem_singleton.mp hqf
      subst hqr
      simp [h, hfix]
    · simp [h]
  rw [List.map_congr_left this]
  exact List.map_id _

theorem oneOrNoneR_none (rs : List ModelRoute) (name : String)
    (h : oneOrNoneR rs name = .ok none) : routesNamed rs name = [] := by
  rw [oneOrNoneR] at h
  cases hpn : routesNamed rs name with
  | nil => rfl
  | cons a as =>
    rw [hpn] at h
    cases as with
    | nil => simp at h
    | cons b bs => exact Except.noConfusion h

theorem oneOrNoneR_some (rs : List ModelRoute) (name : String)
    (r : ModelRoute) (h : oneOrNoneR rs name = .ok (some r)) :
    routesNamed rs name = [r] := by
  rw [oneOrNoneR] at h
  cases hpn : routesNamed rs name with
  | nil => rw [hpn] at h; simp at h
  | cons a as =>
    rw [hpn] at h
    cases as with
    | nil =>
      have : a = r := by simpa using h
      rw [this]
    | cons b bs => exact Except.noConfusion h

theorem resolveNodes_congr (m m2 : List (String × Nat))
    (h : ∀ x, mapLookup m x = mapLookup m2 x) (items : List NodeItem) :
    resolveNodes m items = resolveNodes m2 items := by
  rw [resolveNodes, resolveNodes]
  have hfun : (fun ni : NodeItem =>
      if ni.api_name = "" then none
      else
        match mapLookup m ni.api_name with
        | none => none
        | some pid =>
          some ({ api_id := pid, models := ni.models, strategy := ni.strategy,
                  priority := ni.priority,
                  node_metadata := ni.node_metadata } : RouteNode)) =
      (fun ni : NodeItem =>
      if ni.api_name = "" then none
      else
        match mapLookup m2 ni.api_name with
        | none => none
        | some pid =>
          some ({ api_id := pid, models := ni.models, strategy := ni.strategy,
                  priority := ni.priority,
                  node_metadata := ni.node_metadata } : RouteNode)) := by
    funext ni
    rw [h ni.api_name]
  rw [hfun]

theorem setRouteAttrs_congr (m m2 : List (String × Nat))
    (h : ∀ x, mapLookup m x = mapLookup m2 x) (item : RouteItem)
    (r : ModelRoute) :
    setRouteAttrs m item r = setRouteAttrs m2 item r := by
  rw [setRouteAttrs, setRouteAttrs, resolveNodes_congr m m2 h]

/-- Forward invariant of the route restore loop. -/
theorem restoreRoutesFold_run1 :
    ∀ (items : List RouteItem) (m : List (String × Nat)) (rp rp' : RoutePhase),
      (actingNamesR items).Nodup →
      restoreRoutesFold m rp items = .ok rp' →
      (∀ item ∈ items, item.name ≠ "" →
        ∃ r, routesNamed rp'.routes item.name = [r] ∧ setRouteAttrs m item r = r) ∧
      (∀ x, x ∉ actingNamesR items →
        routesNamed rp'.routes x = routesNamed rp.routes x) := by
  intro items
  induction items with
  | nil =>
    intro m rp rp' hnd hfold
    have heq : rp = rp' := by
      rw [restoreRoutesFold] at hfold
      exact Except.ok.inj hfold
    subst heq
    exact ⟨by simp, fun x _ => rfl⟩
  | cons item rest ih =>
    intro m rp rp' hnd hfold
    rw [restoreRoutesFold] at hfold
    by_cases hskip : item.name = ""
    · have hstep : restoreRouteItem m rp item = .ok rp := by
        rw [restoreRouteItem, if_pos hskip]
      rw [hstep] at hfold
      have hnames : actingNamesR (item :: rest) = actingNamesR rest := by
        rw [actingNamesR, List.filter_cons]
        simp only [hskip]
        rw [show ((!("" == ""))) = false from rfl]
        simp [actingNamesR]
      rw [hnames] at hnd
      obtain ⟨A, B⟩ := ih m rp rp' hnd hfold
      refine ⟨?_, ?_⟩
      · intro it hit hActIt
        rcases List.mem_cons.mp hit with h | h
        · subst h; exact absurd hskip hActIt
        · exact A it h hActIt
      · intro x hx
        rw [hnames] at hx
        exact B x hx
    · rw [restoreRouteItem, if_neg hskip] at hfold
      have hnames : actingNamesR (item :: rest) = item.name :: actingNamesR rest := by
        rw [actingNamesR, List.filter_cons]
        have : (!(item.name == "")) = true := by simpa using hskip
        rw [this]
        simp [actingNamesR]
      rw [hnames] at hnd
      have hnd2 : (actingNamesR rest).Nodup := (List.nodup_cons.mp hnd).2
      have hnotin : item.name ∉ actingNamesR rest := (List.nodup_cons.mp hnd).1
      cases honr : oneOrNoneR rp.routes item.name with
      | error e => rw [honr] at hfold; exact Except.noConfusion hfold
      | ok opt =>
        rw [honr] at hfold
        cases opt with
        | none =>
          obtain ⟨A, B⟩ := ih m _ rp' hnd2 hfold
          have h0 : routesNamed rp.routes item.name = [] :=
            oneOrNoneR_none _ _ honr
          have hnew_named :
              routesNamed (rp.routes ++ [newRouteFrom m item rp.nextId])
                item.name = [newRouteFrom m item rp.nextId] := by
            rw [routesNamed_append, h0]
            simp [routesNamed, newRouteFrom]
          refine ⟨?_, ?_⟩
          · intro it hit hActIt
            rcases List.mem_cons.mp hit with h | h
            · subst h
              refine ⟨newRouteFrom m it rp.nextId, ?_,
                setRouteAttrs_fix_new m it rp.nextId⟩
              rw [B it.name hnotin]
              exact hnew_named
            · exact A it h hActIt
          · intro x hx
            have hx1 : x ≠ item.name := by
              intro he
              exact hx (by rw [he, hnames]; exact List.mem_cons_self _ _)
            have hx2 : x ∉ actingNamesR rest := by
              intro he
              exact hx (by rw [hnames]; exact List.mem_cons_of_mem _ he)
            rw [B x hx2, routesNamed_append]
            have : routesNamed [newRouteFrom m item rp.nextId] x = [] := by
              simp [routesNamed, newRouteFrom]
              intro he
              exact absurd he.symm hx1
            rw [this, List.append_nil]
        | some r =>
          obtain ⟨A, B⟩ := ih m _ rp' hnd2 hfold
          have hpn : routesNamed rp.routes item.name = [r] :=
            oneOrNoneR_some _ _ _ honr
          refine ⟨?_, ?_⟩
          · intro it hit hActIt
            rcases List.mem_cons.mp hit with h | h
            · subst h
              refine ⟨setRouteAttrs m it r, ?_, setRouteAttrs_idem m it r⟩
              rw [B it.name hnotin, updateRouteIn_named, hpn]
              rfl
            · exact A it h hActIt
          · intro x hx
            have hx1 : x ≠ item.name := by
              intro he
              exact hx (by rw [he, hnames]; exact List.mem_cons_self _ _)
            have hx2 : x ∉ actingNamesR rest := by
              intro he
              exact hx (by rw [hnames]; exact List.mem_cons_of_mem _ he)
            rw [B x hx2, updateRouteIn_other _ _ _ _ hx1]

/-- Second-run identity of the route restore loop. -/
theorem restoreRoutesFold_synced :
    ∀ (items : List RouteItem) (m2 : List (String × Nat)) (rp : RoutePhase),
      (∀ item ∈ items, item.name ≠ "" →
        ∃ r, routesNamed rp.routes item.name = [r] ∧ setRouteAttrs m2 item r = r) →
      ∃ rp2, restoreRoutesFold m2 rp items = .ok rp2 ∧
        rp2.routes = rp.routes ∧ rp2.nextId = rp.nextId := by
  intro items
  induction items with
  | nil =>
    intro m2 rp _
    exact ⟨rp, rfl, rfl, rfl⟩
  | cons item rest ih =>
    intro m2 rp hsync
    by_cases hskip : item.name = ""
    · obtain ⟨rp2, hfold2, hroutes2, hnext2⟩ :=
        ih m2 rp (fun it hit hA => hsync it (List.mem_cons_of_mem _ hit) hA)
      refine ⟨rp2, ?_, hroutes2, hnext2⟩
      rw [restoreRoutesFold, restoreRouteItem, if_pos hskip]
      exact hfold2
    · obtain ⟨r, hpn, hfix⟩ := hsync item (List.mem_cons_self _ _) hskip
      have hupd : updateRouteIn rp.routes m2 item = rp.routes :=
        updateRouteIn_id _ _ _ _ hpn hfix
      have honr : oneOrNoneR rp.routes item.name = .ok (some r) := by
        rw [oneOrNoneR, hpn]
      obtain ⟨rp2, hfold2, hroutes2, hnext2⟩ :=
        ih m2 { routes := rp.routes, nextId := rp.nextId, count := rp.count + 1 }
          (fun it hit hA => hsync it (List.mem_cons_of_mem _ hit) hA)
      refine ⟨rp2, ?_, hroutes2, hnext2⟩
      have hstep : restoreRouteItem m2 rp item =
          .ok { routes := rp.routes,
                nextId := rp.nextId,
                count := rp.count + 1 } := by
        rw [restoreRouteItem, if_neg hskip, honr]
        dsimp only
        rw [hupd]
      rw [restoreRoutesFold, hstep]
      exact hfold2

/-- C3: `restore_from_backup` is idempotent.  Starting from any store,
running restore twice on the same unchanged snapshot leaves the store in
the same state as running it once (full state equality: providers and
routes with all their attributes, route nodes included).  The snapshot's
provider and route names are assumed distinct, which every snapshot
written by `write_backup` satisfies (the columns carry unique
constraints); a restore that raises (duplicate names in the store)
commits nothing and is idempotent trivially. -/
theorem C3_restore_idempotent (st : Store) (snap : Snapshot)
    (hp : (actingNamesP snap.providers).Nodup)
    (hr : (actingNamesR snap.routes).Nodup) :
    runRestore (runRestore st snap) snap = runRestore st snap := by
  cases hrun : restore_from_backup st snap with
  | error e =>
    have hrr : runRestore st snap = st := by rw [runRestore, hrun]
    rw [hrr, runRestore, hrun]
  | ok res =>
    obtain ⟨s1, c1, c2⟩ := res
    have hrr : runRestore st snap = s1 := by rw [runRestore, hrun]
    rw [hrr]
    rw [restore_from_backup] at hrun
    cases hph : restoreProvidersFold { providers := st.providers, nextId := st.nextProviderId, nameMap := [], count := 0 } snap.providers with
    | error e => rw [hph] at hrun; exact Except.noConfusion hrun
    | ok ph =>
      rw [hph] at hrun
      dsimp only at hrun
      cases hrp : restoreRoutesFold ph.nameMap { routes := st.routes, nextId := st.nextRouteId, count := 0 } snap.routes with
      | error e => rw [hrp] at hrun; exact Except.noConfusion hrun
      | ok rp =>
        rw [hrp] at hrun
        dsimp only at hrun
        have hs1 : ({ providers := ph.providers, routes := rp.routes, nextProviderId := ph.nextId, nextRouteId := rp.nextId } : Store) = s1 := by
          have h := Except.ok.inj hrun
          exact congrArg Prod.fst h
        obtain ⟨PA, PB⟩ := restoreProvidersFold_run1 snap.providers _ ph hp hph
        obtain ⟨RA, RB⟩ := restoreRoutesFold_run1 snap.routes ph.nameMap _ rp hr hrp
        have hs1p : s1.providers = ph.providers := by rw [← hs1]
        have hs1r : s1.routes = rp.routes := by rw [← hs1]
        have hsyncP : ∀ item ∈ snap.providers, item.name ≠ "" →
            ∃ p, providersNamed s1.providers item.name = [p] ∧
              setProviderAttrs item p = p := by
          intro item hit ha
          obtain ⟨p, h1, h2, -⟩ := PA item hit ha
          exact ⟨p, by rw [hs1p]; exact h1, h2⟩
        obtain ⟨ph2, hfold2, hprov2, hnext2, hA2, hB2⟩ :=
          restoreProvidersFold_synced snap.providers { providers := s1.providers, nextId := s1.nextProviderId, nameMap := [], count := 0 } hp hsyncP
        have hmap : ∀ x, mapLookup ph2.nameMap x = mapLookup ph.nameMap x := by
          intro x
          by_cases hx : x ∈ actingNamesP snap.providers
          · rw [actingNamesP] at hx
            obtain ⟨i, hifil, hiname⟩ := List.mem_map.mp hx
            obtain ⟨himem, hicond⟩ := List.mem_filter.mp hifil
            have hact : i.name ≠ "" := by simpa using hicond
            obtain ⟨p1, hp1, -, hm1⟩ := PA i himem hact
            obtain ⟨p2, hp2, hm2⟩ := hA2 i himem hact
            have hpp : p2 = p1 := by
              rw [hs1p] at hp2
              rw [hp1] at hp2
              exact ((List.cons.inj hp2).1).symm
            rw [← hiname, hm1, hm2, hpp]
          · rw [(PB x hx).1, hB2 x hx]
        have hsyncR : ∀ item ∈ snap.routes, item.name ≠ "" →
            ∃ r, routesNamed s1.routes item.name = [r] ∧
              setRouteAttrs ph2.nameMap item r = r := by
          intro item hit ha
          obtain ⟨r, h1, h2⟩ := RA item hit ha
          refine ⟨r, by rw [hs1r]; exact h1, ?_⟩
          rw [setRouteAttrs_congr ph2.nameMap ph.nameMap hmap]
          exact h2
        obtain ⟨rp2, hfoldR2, hroutes2, hnextR2⟩ :=
          restoreRoutesFold_synced snap.routes ph2.nameMap { routes := s1.routes, nextId := s1.nextRouteId, count := 0 } hsyncR
        rw [runRestore, restore_from_backup, hfold2]
        dsimp only
        rw [hfoldR2]
        dsimp only
        rw [hprov2, hroutes2, hnext2, hnextR2]

/-- A concrete snapshot (one provider `X`, one route `Y` whose node
references `X` by name) and an empty store, for exercising restore. -/
def c3item : ProviderItem :=
  { name := "X", base_url := "http://x", api_key_encrypted := "ek",
    models := ["m"], is_active := true, status := "unknown",
    latency_ms := none, last_tested_at := none, consecutive_failures := 0,
    is_healthy := true, created_at := none, updated_at := none }

def c3nodeItem : NodeItem :=
  { api_name := "X", models := [], strategy := "failover", priority := 0,
    node_metadata := [] }

def c3routeItem : RouteItem :=
  { name := "Y", mode := "specific", config := ⟨[], none⟩,
    is_active := true, nodes := [c3nodeItem],
    created_at := none, updated_at := none }

def c3snap : Snapshot :=
  { generated_at := "2024-01-01T00:00:00Z",
    providers := [c3item],
    routes := [c3routeItem] }

def c3st : Store :=
  { providers := [], routes := [], nextProviderId := 1, nextRouteId := 1 }

/-- Witness for C3 at the concrete snapshot and empty store. -/
theorem C3_restore_idempotent_witness :
    (actingNamesP c3snap.providers).Nodup ∧
    runRestore (runRestore c3st c3snap) c3snap = runRestore c3st c3snap :=
  ⟨by decide, C3_restore_idempotent c3st c3snap (by decide) (by decide)⟩

end Gateway
